import Mathlib

/-!
# Descriptor generator of `pkg/backend/kubeflow/generator/cm.go`

A shallow embedding of the config-map based generator `CM` and of its two
operations `GenerateTFJob` and `GeneratePyTorchJob`, followed by the
properties of the generated job descriptors.

Conventions of the embedding:

* a Go pointer field (`*int32`, `*CleanPodPolicy`, `*ConfigMapVolumeSource`)
  is an `Option`; taking the address of a local (`&psCount`) is `some`;
* a Go result `(T, error)` is a pair whose second component is `none` for a
  `nil` error;
* a Go map literal is the list of its key/value entries in source order (the
  Go compiler rejects a literal with two equal constant keys);
* `int` is a mathematical integer and the conversion `int32(..)` wraps
  modulo `2^32` into the signed range;
* struct fields that the generator leaves at their zero value are not listed;
* the operations are embedded twice: with a resolver whose methods are plain
  results, and with a resolver whose methods are calls that read and change an
  ambient state (`CM.GenerateTFJobIn`, `CM.GeneratePyTorchJobIn`), which is
  what a statement about two separate calls needs.
-/

namespace Ciao

/-! ## Data model -/

/-- Go `error` values, identified by their message. -/
abbrev GoError := String

/-- Kubernetes `v1.ResourceList`: resource name to quantity. -/
abbrev ResourceList := List (String × String)

/-- Kubeflow `common.ReplicaType` (and its per-framework aliases), a string type. -/
abbrev ReplicaType := String

/-- Kubeflow `common.CleanPodPolicy`, a string type. -/
abbrev CleanPodPolicy := String

/-- Kubeflow `tfv1beta2.Kind`. -/
def tfKind : String := "TFJob"

/-- Kubeflow `pytorchv1beta2.Kind`. -/
def pytorchKind : String := "PyTorchJob"

/-- Kubeflow `tfv1beta2.TFReplicaTypePS`. -/
def TFReplicaTypePS : ReplicaType := "PS"

/-- Kubeflow `tfv1beta2.TFReplicaTypeWorker`. -/
def TFReplicaTypeWorker : ReplicaType := "Worker"

/-- Kubeflow `pytorchv1beta2.PyTorchReplicaTypeMaster`. -/
def PyTorchReplicaTypeMaster : ReplicaType := "Master"

/-- Kubeflow `pytorchv1beta2.PyTorchReplicaTypeWorker`. -/
def PyTorchReplicaTypeWorker : ReplicaType := "Worker"

/-- Base image of the TensorFlow containers (`cm.go`, line 31). -/
def baseImageTF : String := "tensorflow/tensorflow:1.10.1-py3"

/-- Base image of the PyTorch containers (`cm.go`, line 32). -/
def baseImagePyTorch : String := "pytorch/pytorch:v0.2"

/-- Constants that `cm.go` uses and that are declared elsewhere in the
repository: the entry-file name `s2iconfigmap.FileName` and the two default
container names of the `generator` package.  They are parameters of the
embedding. -/
structure Consts where
  FileName : String
  defaultContainerNameTF : String
  defaultContainerNamePyTorch : String
deriving DecidableEq, Repr

/-- The resolver `types.Resource`, seen through the three methods that
`cm.go` calls.  Each method takes no argument and returns
`(v1.ResourceList, error)`; the field is that result. -/
structure Resource where
  PSLimits : ResourceList × Option GoError
  WorkerLimits : ResourceList × Option GoError
  MasterLimits : ResourceList × Option GoError
deriving DecidableEq, Repr

/-- The fields of `types.Parameter` that `cm.go` reads. -/
structure Parameter where
  GenerateName : String
  Image : String
  CleanPolicy : String
  PSCount : Int
  WorkerCount : Int
  MasterCount : Int
  Resource : Resource
deriving DecidableEq, Repr

/-- Kubernetes `v1.VolumeMount`. -/
structure VolumeMount where
  Name : String
  MountPath : String
deriving DecidableEq, Repr

/-- Kubernetes `v1.ResourceRequirements`. -/
structure ResourceRequirements where
  Limits : ResourceList
deriving DecidableEq, Repr

/-- Kubernetes `v1.Container`. -/
structure Container where
  Name : String
  Image : String
  Command : List String
  Resources : ResourceRequirements
  VolumeMounts : List VolumeMount
deriving DecidableEq, Repr

/-- Kubernetes `v1.LocalObjectReference`. -/
structure LocalObjectReference where
  Name : String
deriving DecidableEq, Repr

/-- Kubernetes `v1.ConfigMapVolumeSource`. -/
structure ConfigMapVolumeSource where
  LocalObjectReference : LocalObjectReference
deriving DecidableEq, Repr

/-- Kubernetes `v1.VolumeSource`; only the config-map member is ever set. -/
structure VolumeSource where
  ConfigMap : Option ConfigMapVolumeSource
deriving DecidableEq, Repr

/-- Kubernetes `v1.Volume`. -/
structure Volume where
  Name : String
  VolumeSource : VolumeSource
deriving DecidableEq, Repr

/-- Kubernetes `v1.PodSpec`. -/
structure PodSpec where
  Containers : List Container
  Volumes : List Volume
deriving DecidableEq, Repr

/-- Kubernetes `v1.PodTemplateSpec`. -/
structure PodTemplateSpec where
  Spec : PodSpec
deriving DecidableEq, Repr

/-- Kubeflow `common.ReplicaSpec`. -/
structure ReplicaSpec where
  Replicas : Option Int
  Template : PodTemplateSpec
deriving DecidableEq, Repr

/-- Kubernetes `metav1.TypeMeta`. -/
structure TypeMeta where
  Kind : String
deriving DecidableEq, Repr

/-- Kubernetes `metav1.ObjectMeta`. -/
structure ObjectMeta where
  Name : String
  Namespace : String
deriving DecidableEq, Repr

/-- A Go map literal from replica types to replica specs. -/
abbrev ReplicaSpecs := List (ReplicaType × ReplicaSpec)

/-- Kubeflow `tfv1beta2.TFJobSpec`. -/
structure TFJobSpec where
  CleanPodPolicy : Option CleanPodPolicy
  TFReplicaSpecs : ReplicaSpecs
deriving DecidableEq, Repr

/-- Kubeflow `tfv1beta2.TFJob`. -/
structure TFJob where
  TypeMeta : TypeMeta
  ObjectMeta : ObjectMeta
  Spec : TFJobSpec
deriving DecidableEq, Repr

/-- Kubeflow `pytorchv1beta2.PyTorchJobSpec`. -/
structure PyTorchJobSpec where
  CleanPodPolicy : Option CleanPodPolicy
  PyTorchReplicaSpecs : ReplicaSpecs
deriving DecidableEq, Repr

/-- Kubeflow `pytorchv1beta2.PyTorchJob`. -/
structure PyTorchJob where
  TypeMeta : TypeMeta
  ObjectMeta : ObjectMeta
  Spec : PyTorchJobSpec
deriving DecidableEq, Repr

/-- The generator `CM` (`cm.go`, lines 36-38). -/
structure CM where
  Namespace : String
deriving DecidableEq, Repr

/-! ## Helpers of the embedding -/

/-- Go conversion `int32(n)`: the representative of `n` modulo `2^32` in
the signed 32-bit range. -/
def int32 (n : Int) : Int :=
  (n + 2147483648) % 4294967296 - 2147483648

/-- Keys of a map literal. -/
def ReplicaSpecs.keys (m : ReplicaSpecs) : List ReplicaType :=
  m.map Prod.fst

/-- Map indexing `m[k]`, `none` when the key is absent. -/
def ReplicaSpecs.get (m : ReplicaSpecs) (k : ReplicaType) : Option ReplicaSpec :=
  match m with
  | [] => none
  | (k', v) :: rest => if k' = k then some v else ReplicaSpecs.get rest k

/-! ## The generator -/

/-- The constructor `NewCM` (`cm.go`, lines 41-45). -/
def NewCM (ns : String) : CM :=
  { Namespace := ns }

/-- The operation `CM.GenerateTFJob` (`cm.go`, lines 48-155). -/
def CM.GenerateTFJob (k : Consts) (c : CM) (parameter : Parameter) :
    Option TFJob × Option GoError :=
  let psCount := int32 parameter.PSCount
  let workerCount := int32 parameter.WorkerCount
  let cleanPodPolicy : CleanPodPolicy := parameter.CleanPolicy
  match parameter.Resource.PSLimits with
  | (_, some err) => (none, some err)
  | (psResource, none) =>
    match parameter.Resource.WorkerLimits with
    | (_, some err) => (none, some err)
    | (workerResource, none) =>
      let mountPath := "/" ++ parameter.Image
      let filename := "/" ++ parameter.Image ++ "/" ++ k.FileName
      (some
        { TypeMeta := { Kind := tfKind }
          ObjectMeta :=
            { Name := parameter.GenerateName
              Namespace := c.Namespace }
          Spec :=
            { CleanPodPolicy := some cleanPodPolicy
              TFReplicaSpecs :=
                [ (TFReplicaTypePS,
                    { Replicas := some psCount
                      Template :=
                        { Spec :=
                            { Containers :=
                                [ { Name := k.defaultContainerNameTF
                                    Image := baseImageTF
                                    Command := ["python", filename]
                                    Resources := { Limits := psResource }
                                    VolumeMounts :=
                                      [ { Name := parameter.Image
                                          MountPath := mountPath } ] } ]
                              Volumes :=
                                [ { Name := parameter.Image
                                    VolumeSource :=
                                      { ConfigMap :=
                                          some { LocalObjectReference :=
                                                   { Name := parameter.Image } } } } ] } } }),
                  (TFReplicaTypeWorker,
                    { Replicas := some workerCount
                      Template :=
                        { Spec :=
                            { Containers :=
                                [ { Name := k.defaultContainerNameTF
                                    Image := baseImageTF
                                    Command := ["python", filename]
                                    Resources := { Limits := workerResource }
                                    VolumeMounts :=
                                      [ { Name := parameter.Image
                                          MountPath := mountPath } ] } ]
                              Volumes :=
                                [ { Name := parameter.Image
                                    VolumeSource :=
                                      { ConfigMap :=
                                          some { LocalObjectReference :=
                                                   { Name := parameter.Image } } } } ] } } }) ] } },
        none)

/-- The operation `CM.GeneratePyTorchJob` (`cm.go`, lines 158-265). -/
def CM.GeneratePyTorchJob (k : Consts) (c : CM) (parameter : Parameter) :
    Option PyTorchJob × Option GoError :=
  let masterCount := int32 parameter.MasterCount
  let workerCount := int32 parameter.WorkerCount
  let cleanPodPolicy : CleanPodPolicy := parameter.CleanPolicy
  match parameter.Resource.MasterLimits with
  | (_, some err) => (none, some err)
  | (masterResource, none) =>
    match parameter.Resource.WorkerLimits with
    | (_, some err) => (none, some err)
    | (workerResource, none) =>
      let mountPath := "/" ++ parameter.Image
      let filename := "/" ++ parameter.Image ++ "/" ++ k.FileName
      (some
        { TypeMeta := { Kind := pytorchKind }
          ObjectMeta :=
            { Name := parameter.GenerateName
              Namespace := c.Namespace }
          Spec :=
            { CleanPodPolicy := some cleanPodPolicy
              PyTorchReplicaSpecs :=
                [ (PyTorchReplicaTypeMaster,
                    { Replicas := some masterCount
                      Template :=
                        { Spec :=
                            { Containers :=
                                [ { Name := k.defaultContainerNamePyTorch
                                    Image := baseImagePyTorch
                                    Command := ["python", filename]
                                    Resources := { Limits := masterResource }
                                    VolumeMounts :=
                                      [ { Name := parameter.Image
                                          MountPath := mountPath } ] } ]
                              Volumes :=
                                [ { Name := parameter.Image
                                    VolumeSource :=
                                      { ConfigMap :=
                                          some { LocalObjectReference :=
                                                   { Name := parameter.Image } } } } ] } } }),
                  (PyTorchReplicaTypeWorker,
                    { Replicas := some workerCount
                      Template :=
                        { Spec :=
                            { Containers :=
                                [ { Name := k.defaultContainerNamePyTorch
                                    Image := baseImagePyTorch
                                    Command := ["python", filename]
                                    Resources := { Limits := workerResource }
                                    VolumeMounts :=
                                      [ { Name := parameter.Image
                                          MountPath := mountPath } ] } ]
                              Volumes :=
                                [ { Name := parameter.Image
                                    VolumeSource :=
                                      { ConfigMap :=
                                          some { LocalObjectReference :=
                                                   { Name := parameter.Image } } } } ] } } }) ] } },
        none)

/-! ## The generator with stateful resolvers -/

/-- The resolver `types.Resource` when a call of one of its methods may read
and change state outside the parameter: each method takes the ambient state
and returns its Go result `(v1.ResourceList, error)` together with the state
it leaves. -/
structure StatefulResource (σ : Type) where
  PSLimits : σ → (ResourceList × Option GoError) × σ
  WorkerLimits : σ → (ResourceList × Option GoError) × σ
  MasterLimits : σ → (ResourceList × Option GoError) × σ

/-- The fields of `types.Parameter` that `cm.go` reads, with a stateful
resolver. -/
structure StatefulParameter (σ : Type) where
  GenerateName : String
  Image : String
  CleanPolicy : String
  PSCount : Int
  WorkerCount : Int
  MasterCount : Int
  Resource : StatefulResource σ

/-- The operation `CM.GenerateTFJob` (`cm.go`, lines 48-155) as one call in
the ambient state `s`: the state is handed to `PSLimits`, then to
`WorkerLimits`, in the order of the source, and the call returns the state
left by the last resolver it called. -/
def CM.GenerateTFJobIn {σ : Type} (k : Consts) (c : CM) (parameter : StatefulParameter σ)
    (s : σ) : (Option TFJob × Option GoError) × σ :=
  let psCount := int32 parameter.PSCount
  let workerCount := int32 parameter.WorkerCount
  let cleanPodPolicy : CleanPodPolicy := parameter.CleanPolicy
  match parameter.Resource.PSLimits s with
  | ((_, some err), s₁) => ((none, some err), s₁)
  | ((psResource, none), s₁) =>
    match parameter.Resource.WorkerLimits s₁ with
    | ((_, some err), s₂) => ((none, some err), s₂)
    | ((workerResource, none), s₂) =>
      let mountPath := "/" ++ parameter.Image
      let filename := "/" ++ parameter.Image ++ "/" ++ k.FileName
      ((some
        { TypeMeta := { Kind := tfKind }
          ObjectMeta :=
            { Name := parameter.GenerateName
              Namespace := c.Namespace }
          Spec :=
            { CleanPodPolicy := some cleanPodPolicy
              TFReplicaSpecs :=
                [ (TFReplicaTypePS,
                    { Replicas := some psCount
                      Template :=
                        { Spec :=
                            { Containers :=
                                [ { Name := k.defaultContainerNameTF
                                    Image := baseImageTF
                                    Command := ["python", filename]
                                    Resources := { Limits := psResource }
                                    VolumeMounts :=
                                      [ { Name := parameter.Image
                                          MountPath := mountPath } ] } ]
                              Volumes :=
                                [ { Name := parameter.Image
                                    VolumeSource :=
                                      { ConfigMap :=
                                          some { LocalObjectReference :=
                                                   { Name := parameter.Image } } } } ] } } }),
                  (TFReplicaTypeWorker,
                    { Replicas := some workerCount
                      Template :=
                        { Spec :=
                            { Containers :=
                                [ { Name := k.defaultContainerNameTF
                                    Image := baseImageTF
                                    Command := ["python", filename]
                                    Resources := { Limits := workerResource }
                                    VolumeMounts :=
                                      [ { Name := parameter.Image
                                          MountPath := mountPath } ] } ]
                              Volumes :=
                                [ { Name := parameter.Image
                                    VolumeSource :=
                                      { ConfigMap :=
                                          some { LocalObjectReference :=
                                                   { Name := parameter.Image } } } } ] } } }) ] } },
        none), s₂)

/-- The operation `CM.GeneratePyTorchJob` (`cm.go`, lines 158-265) as one
call in the ambient state `s`: the state is handed to `MasterLimits`, then to
`WorkerLimits`, in the order of the source, and the call returns the state
left by the last resolver it called. -/
def CM.GeneratePyTorchJobIn {σ : Type} (k : Consts) (c : CM)
    (parameter : StatefulParameter σ) (s : σ) : (Option PyTorchJob × Option GoError) × σ :=
  let masterCount := int32 parameter.MasterCount
  let workerCount := int32 parameter.WorkerCount
  let cleanPodPolicy : CleanPodPolicy := parameter.CleanPolicy
  match parameter.Resource.MasterLimits s with
  | ((_, some err), s₁) => ((none, some err), s₁)
  | ((masterResource, none), s₁) =>
    match parameter.Resource.WorkerLimits s₁ with
    | ((_, some err), s₂) => ((none, some err), s₂)
    | ((workerResource, none), s₂) =>
      let mountPath := "/" ++ parameter.Image
      let filename := "/" ++ parameter.Image ++ "/" ++ k.FileName
      ((some
        { TypeMeta := { Kind := pytorchKind }
          ObjectMeta :=
            { Name := parameter.GenerateName
              Namespace := c.Namespace }
          Spec :=
            { CleanPodPolicy := some cleanPodPolicy
              PyTorchReplicaSpecs :=
                [ (PyTorchReplicaTypeMaster,
                    { Replicas := some masterCount
                      Template :=
                        { Spec :=
                            { Containers :=
                                [ { Name := k.defaultContainerNamePyTorch
                                    Image := baseImagePyTorch
                                    Command := ["python", filename]
                                    Resources := { Limits := masterResource }
                                    VolumeMounts :=
                                      [ { Name := parameter.Image
                                          MountPath := mountPath } ] } ]
                              Volumes :=
                                [ { Name := parameter.Image
                                    VolumeSource :=
                                      { ConfigMap :=
                                          some { LocalObjectReference :=
                                                   { Name := parameter.Image } } } } ] } } }),
                  (PyTorchReplicaTypeWorker,
                    { Replicas := some workerCount
                      Template :=
                        { Spec :=
                            { Containers :=
                                [ { Name := k.defaultContainerNamePyTorch
                                    Image := baseImagePyTorch
                                    Command := ["python", filename]
                                    Resources := { Limits := workerResource }
                                    VolumeMounts :=
                                      [ { Name := parameter.Image
                                          MountPath := mountPath } ] } ]
                              Volumes :=
                                [ { Name := parameter.Image
                                    VolumeSource :=
                                      { ConfigMap :=
                                          some { LocalObjectReference :=
                                                   { Name := parameter.Image } } } } ] } } }) ] } },
        none), s₂)

/-- The parameter `p` seen as a stateful one: each resolver method returns
its fixed result and leaves the state as it found it. -/
def Parameter.toStateful (σ : Type) (p : Parameter) : StatefulParameter σ :=
  { GenerateName := p.GenerateName
    Image := p.Image
    CleanPolicy := p.CleanPolicy
    PSCount := p.PSCount
    WorkerCount := p.WorkerCount
    MasterCount := p.MasterCount
    Resource :=
      { PSLimits := fun s => (p.Resource.PSLimits, s)
        WorkerLimits := fun s => (p.Resource.WorkerLimits, s)
        MasterLimits := fun s => (p.Resource.MasterLimits, s) } }

/-! ## Comparison of replica specs -/

/-- A container with its resource limits replaced. -/
def Container.withLimits (ct : Container) (limits : ResourceList) : Container :=
  { ct with Resources := { Limits := limits } }

/-- The replica spec `a` after its replica count and the limits of its
containers (taken in order) are overwritten with those of `b`; every other
field is the one of `a`. -/
def ReplicaSpec.withCountAndLimitsOf (a b : ReplicaSpec) : ReplicaSpec :=
  { Replicas := b.Replicas
    Template :=
      { Spec :=
          { Containers :=
              List.zipWith (fun ca cb => ca.withLimits cb.Resources.Limits)
                a.Template.Spec.Containers b.Template.Spec.Containers
            Volumes := a.Template.Spec.Volumes } } }

/-- The fields of a container other than its resource limits. -/
def Container.shape (ct : Container) : String × String × List String × List VolumeMount :=
  (ct.Name, ct.Image, ct.Command, ct.VolumeMounts)

/-! ## Relating the two frameworks and two namespaces -/

/-- The parameter `p` in which the master role takes the count and the
resolver result of the parameter-server role. -/
def Parameter.withMasterFromPS (p : Parameter) : Parameter :=
  { p with
    MasterCount := p.PSCount
    Resource := { p.Resource with MasterLimits := p.Resource.PSLimits } }

/-- Renaming of a string: `src` becomes `dst`, any other string is kept. -/
def renameString (src dst s : String) : String :=
  if s = src then dst else s

/-- Renaming of the framework constants in a container: the TensorFlow
container name and base image become the PyTorch ones; command, limits and
volume mounts are kept. -/
def Container.renameToPyTorch (k : Consts) (ct : Container) : Container :=
  { ct with
    Name := renameString k.defaultContainerNameTF k.defaultContainerNamePyTorch ct.Name
    Image := renameString baseImageTF baseImagePyTorch ct.Image }

/-- Renaming of the framework constants in the containers of a replica
spec; replica count and volumes are kept. -/
def ReplicaSpec.renameToPyTorch (k : Consts) (rs : ReplicaSpec) : ReplicaSpec :=
  { rs with
    Template :=
      { Spec :=
          { Containers := rs.Template.Spec.Containers.map (Container.renameToPyTorch k)
            Volumes := rs.Template.Spec.Volumes } } }

/-- Renaming of a TFJob into a PyTorchJob: the kind tag TFJob becomes
PyTorchJob, the role key PS becomes Master, container name and base image
become those of PyTorch; every other field is copied. -/
def TFJob.renameToPyTorch (k : Consts) (job : TFJob) : PyTorchJob :=
  { TypeMeta := { Kind := renameString tfKind pytorchKind job.TypeMeta.Kind }
    ObjectMeta := job.ObjectMeta
    Spec :=
      { CleanPodPolicy := job.Spec.CleanPodPolicy
        PyTorchReplicaSpecs :=
          job.Spec.TFReplicaSpecs.map
            (fun entry =>
              (renameString TFReplicaTypePS PyTorchReplicaTypeMaster entry.1,
               ReplicaSpec.renameToPyTorch k entry.2)) } }

/-- A TFJob with its metadata namespace replaced. -/
def TFJob.withNamespace (job : TFJob) (ns : String) : TFJob :=
  { job with ObjectMeta := { job.ObjectMeta with Namespace := ns } }

/-- A PyTorchJob with its metadata namespace replaced. -/
def PyTorchJob.withNamespace (job : PyTorchJob) (ns : String) : PyTorchJob :=
  { job with ObjectMeta := { job.ObjectMeta with Namespace := ns } }

/-- The relation between a count `n` and a signed 32-bit value `r`
congruent to it modulo `2^32`. -/
def IsInt32Of (n r : Int) : Prop :=
  -2147483648 ≤ r ∧ r ≤ 2147483647 ∧ r % 4294967296 = n % 4294967296

/-- Two outcomes `r₁` and `r₂` of one operation agree, given the results
`first` and `worker` of the resolver calls of the first of the two calls:
the outcomes are equal, and they are either one descriptor without error,
both resolver calls having succeeded, or no descriptor and one error, the
error of the first resolver call that failed. -/
def AgreeingOutcomes {α : Type} (r₁ r₂ : Option α × Option GoError)
    (first worker : ResourceList × Option GoError) : Prop :=
  r₁ = r₂ ∧
  ((∃ job, r₁ = (some job, none) ∧ r₂ = (some job, none) ∧
      first.2 = none ∧ worker.2 = none) ∨
   (∃ e, r₁ = (none, some e) ∧ r₂ = (none, some e) ∧
      (first.2 = some e ∨ (first.2 = none ∧ worker.2 = some e))))

/-! ## Sample inputs -/

/-- Sample values for the constants declared outside `cm.go`. -/
def sampleConsts : Consts :=
  { FileName := "code.py"
    defaultContainerNameTF := "tensorflow"
    defaultContainerNamePyTorch := "pytorch" }

/-- A resolver on which every role resolves: 1 cpu and 2Gi for the first
role of either framework, 2 cpu and 4Gi for the workers. -/
def sampleResource : Resource :=
  { PSLimits := ([("cpu", "1"), ("memory", "2Gi")], none)
    WorkerLimits := ([("cpu", "2"), ("memory", "4Gi")], none)
    MasterLimits := ([("cpu", "1"), ("memory", "2Gi")], none) }

/-- The parameter of the scenario of the specification: job `job-1` on
image `mnist`, two parameter servers (or masters) and three workers. -/
def sampleParameter : Parameter :=
  { GenerateName := "job-1"
    Image := "mnist"
    CleanPolicy := "All"
    PSCount := 2
    WorkerCount := 3
    MasterCount := 2
    Resource := sampleResource }

/-- The scenario parameter with a resolver whose worker role fails. -/
def workerFailParameter : Parameter :=
  { sampleParameter with
    Resource :=
      { sampleResource with WorkerLimits := ([], some "malformed quantity") } }

/-- The scenario parameter with a resolver whose parameter-server role fails. -/
def psFailParameter : Parameter :=
  { sampleParameter with
    Resource :=
      { sampleResource with PSLimits := ([], some "malformed quantity") } }

/-- The scenario parameter with a resolver whose master role fails. -/
def masterFailParameter : Parameter :=
  { sampleParameter with
    Resource :=
      { sampleResource with MasterLimits := ([], some "malformed quantity") } }

/-- A resolver call over a call counter: the call adds one to the counter,
returns `limits`, and fails once the counter has reached 100. -/
def countedCall (limits : ResourceList) (n : Nat) : (ResourceList × Option GoError) × Nat :=
  if n < 100 then ((limits, none), n + 1) else (([], some "resolver exhausted"), n + 1)

/-- The same resolver call, written separately. -/
def countedCallAgain (limits : ResourceList) (n : Nat) :
    (ResourceList × Option GoError) × Nat :=
  if 100 ≤ n then (([], some "resolver exhausted"), 1 + n) else ((limits, none), 1 + n)

/-- A resolver over a call counter. -/
def countingResource : StatefulResource Nat :=
  { PSLimits := countedCall [("cpu", "1"), ("memory", "2Gi")]
    WorkerLimits := countedCall [("cpu", "2"), ("memory", "4Gi")]
    MasterLimits := countedCall [("cpu", "1"), ("memory", "2Gi")] }

/-- The scenario parameter over the counting resolver. -/
def countingParameter : StatefulParameter Nat :=
  { GenerateName := "job-1"
    Image := "mnist"
    CleanPolicy := "All"
    PSCount := 2
    WorkerCount := 3
    MasterCount := 2
    Resource := countingResource }

/-- A second parameter over a counting resolver, built separately, with
fields equal to those of `countingParameter`. -/
def countingParameterAgain : StatefulParameter Nat :=
  { GenerateName := "job" ++ "-1"
    Image := "mnist"
    CleanPolicy := "All"
    PSCount := 1 + 1
    WorkerCount := 1 + 2
    MasterCount := 1 + 1
    Resource :=
      { PSLimits := countedCallAgain [("cpu", "1"), ("memory", "2Gi")]
        WorkerLimits := countedCallAgain [("cpu", "2"), ("memory", "4Gi")]
        MasterLimits := countedCallAgain [("cpu", "1"), ("memory", "2Gi")] } }

/-- The scenario parameter with a clean policy that is not one of the
recognised policies. -/
def unknownPolicyParameter : Parameter :=
  { sampleParameter with CleanPolicy := "NoSuchPolicy" }

/-- The scenario parameter with the empty clean policy. -/
def emptyPolicyParameter : Parameter :=
  { sampleParameter with CleanPolicy := "" }

/-- The scenario parameter with a resolver on which every role fails, each
with an error of its own. -/
def allFailParameter : Parameter :=
  { sampleParameter with
    Resource :=
      { PSLimits := ([], some "malformed ps quantity")
        WorkerLimits := ([], some "malformed worker quantity")
        MasterLimits := ([], some "malformed master quantity") } }

/-- The scenario parameter with counts outside the signed 32-bit range:
`2^31` for the first role of either framework and `2^32` workers. -/
def wideCountParameter : Parameter :=
  { sampleParameter with
    PSCount := 2147483648
    WorkerCount := 4294967296
    MasterCount := 2147483648 }

/-- The scenario parameter with negative counts. -/
def negativeCountParameter : Parameter :=
  { sampleParameter with
    PSCount := -5
    WorkerCount := -1
    MasterCount := -2147483648 }

/-- The scenario parameter with negative counts below the signed 32-bit
range: `-2^31 - 1` for the first role of either framework and `-2^32`
workers. -/
def belowRangeParameter : Parameter :=
  { sampleParameter with
    PSCount := -2147483649
    WorkerCount := -4294967296
    MasterCount := -2147483649 }

/-- The scenario parameter with another master count and a failing master
resolver; every other field is the one of the scenario. -/
def otherMasterParameter : Parameter :=
  { sampleParameter with
    MasterCount := 7
    Resource :=
      { sampleResource with MasterLimits := ([], some "malformed master quantity") } }

/-- The scenario parameter with another parameter-server count and a
failing parameter-server resolver; every other field is the one of the
scenario. -/
def otherPSParameter : Parameter :=
  { sampleParameter with
    PSCount := 7
    Resource :=
      { sampleResource with PSLimits := ([], some "malformed ps quantity") } }

/-! ## Shared lemmas -/

/-- The conversion `int32` is the identity on the signed 32-bit range. -/
theorem int32_eq_self (n : Int) (hlo : -2147483648 ≤ n) (hhi : n ≤ 2147483647) :
    int32 n = n := by
  unfold int32
  omega

/-- A pair whose second component is `none` is its first component paired
with `none`. -/
theorem pair_of_snd_none {α β : Type} (x : α × Option β) (h : x.2 = none) :
    x = (x.1, none) := by
  cases x
  simp_all

/-- A pair whose second component is `some e` is its first component paired
with `some e`. -/
theorem pair_of_snd_some {α β : Type} (x : α × Option β) (e : β) (h : x.2 = some e) :
    x = (x.1, some e) := by
  cases x
  simp_all

/-- The conversion `int32` yields a signed 32-bit value congruent to its
argument modulo `2^32`, and it is the only such value. -/
theorem int32_is_the_truncation (n : Int) :
    IsInt32Of n (int32 n) ∧ ∀ r, IsInt32Of n r → r = int32 n := by
  unfold IsInt32Of int32
  refine ⟨⟨?_, ?_, ?_⟩, ?_⟩
  · omega
  · omega
  · omega
  · rintro r ⟨h1, h2, h3⟩
    omega

/-- On a resolver without state the stateful embedding of `GenerateTFJob`
returns the outcome of the plain one and leaves the state untouched. -/
theorem GenerateTFJobIn_toStateful {σ : Type} (k : Consts) (c : CM) (p : Parameter) (s : σ) :
    CM.GenerateTFJobIn k c (p.toStateful σ) s = (CM.GenerateTFJob k c p, s) := by
  rcases hps : p.Resource.PSLimits with ⟨ps, _ | e1⟩ <;>
    rcases hws : p.Resource.WorkerLimits with ⟨ws, _ | e2⟩ <;>
    simp [CM.GenerateTFJobIn, CM.GenerateTFJob, Parameter.toStateful, hps, hws]

/-- On a resolver without state the stateful embedding of
`GeneratePyTorchJob` returns the outcome of the plain one and leaves the
state untouched. -/
theorem GeneratePyTorchJobIn_toStateful {σ : Type} (k : Consts) (c : CM) (p : Parameter)
    (s : σ) :
    CM.GeneratePyTorchJobIn k c (p.toStateful σ) s = (CM.GeneratePyTorchJob k c p, s) := by
  rcases hms : p.Resource.MasterLimits with ⟨ms, _ | e1⟩ <;>
    rcases hws : p.Resource.WorkerLimits with ⟨ws, _ | e2⟩ <;>
    simp [CM.GeneratePyTorchJobIn, CM.GeneratePyTorchJob, Parameter.toStateful, hms, hws]

/-! ## Error propagation -/

/-- C1: a failing resolver, every resolver consulted before it having
succeeded, makes the operation return no descriptor together with exactly the
resolver's error: `PSLimits` then `WorkerLimits` for `GenerateTFJob`,
`MasterLimits` then `WorkerLimits` for `GeneratePyTorchJob`. -/
theorem resolver_error_is_returned (k : Consts) (c : CM) (p : Parameter) (e : GoError) :
    (p.Resource.PSLimits.2 = some e → CM.GenerateTFJob k c p = (none, some e)) ∧
    (p.Resource.PSLimits.2 = none → p.Resource.WorkerLimits.2 = some e →
      CM.GenerateTFJob k c p = (none, some e)) ∧
    (p.Resource.MasterLimits.2 = some e → CM.GeneratePyTorchJob k c p = (none, some e)) ∧
    (p.Resource.MasterLimits.2 = none → p.Resource.WorkerLimits.2 = some e →
      CM.GeneratePyTorchJob k c p = (none, some e)) := by
  refine ⟨fun h => ?_, fun h1 h2 => ?_, fun h => ?_, fun h1 h2 => ?_⟩
  · have hp := pair_of_snd_some _ _ h
    simp only [CM.GenerateTFJob]
    rw [hp]
  · have hp := pair_of_snd_none _ h1
    have hw := pair_of_snd_some _ _ h2
    simp only [CM.GenerateTFJob]
    rw [hp, hw]
  · have hp := pair_of_snd_some _ _ h
    simp only [CM.GeneratePyTorchJob]
    rw [hp]
  · have hp := pair_of_snd_none _ h1
    have hw := pair_of_snd_some _ _ h2
    simp only [CM.GeneratePyTorchJob]
    rw [hp, hw]

/-- C1 on the scenario of the specification: a worker resolver failing with
"malformed quantity" after a successful first role, and a failing first role,
for both operations. -/
theorem resolver_error_is_returned_witness :
    CM.GenerateTFJob sampleConsts (NewCM "ml-jobs") psFailParameter
        = (none, some "malformed quantity") ∧
      CM.GenerateTFJob sampleConsts (NewCM "ml-jobs") workerFailParameter
        = (none, some "malformed quantity") ∧
      CM.GeneratePyTorchJob sampleConsts (NewCM "ml-jobs") masterFailParameter
        = (none, some "malformed quantity") ∧
      CM.GeneratePyTorchJob sampleConsts (NewCM "ml-jobs") workerFailParameter
        = (none, some "malformed quantity") :=
  ⟨(resolver_error_is_returned sampleConsts (NewCM "ml-jobs") psFailParameter
      "malformed quantity").1 rfl,
   (resolver_error_is_returned sampleConsts (NewCM "ml-jobs") workerFailParameter
      "malformed quantity").2.1 rfl rfl,
   (resolver_error_is_returned sampleConsts (NewCM "ml-jobs") masterFailParameter
      "malformed quantity").2.2.1 rfl,
   (resolver_error_is_returned sampleConsts (NewCM "ml-jobs") workerFailParameter
      "malformed quantity").2.2.2 rfl rfl⟩

/-- C2: each operation has exactly two outcomes.  It returns a descriptor
and no error exactly when both of its resolvers succeed, and an error and no
descriptor exactly when one of them fails; it never returns both and never
returns neither.  Counts, image, name and clean policy play no part in which
outcome occurs. -/
theorem generation_is_all_or_nothing (k : Consts) (c : CM) (p : Parameter) :
    (((∃ job, CM.GenerateTFJob k c p = (some job, none)) ↔
        (p.Resource.PSLimits.2 = none ∧ p.Resource.WorkerLimits.2 = none)) ∧
      ((∃ e, CM.GenerateTFJob k c p = (none, some e)) ↔
        ¬ (p.Resource.PSLimits.2 = none ∧ p.Resource.WorkerLimits.2 = none)) ∧
      ¬ ((CM.GenerateTFJob k c p).1 ≠ none ∧ (CM.GenerateTFJob k c p).2 ≠ none) ∧
      ¬ ((CM.GenerateTFJob k c p).1 = none ∧ (CM.GenerateTFJob k c p).2 = none)) ∧
    (((∃ job, CM.GeneratePyTorchJob k c p = (some job, none)) ↔
        (p.Resource.MasterLimits.2 = none ∧ p.Resource.WorkerLimits.2 = none)) ∧
      ((∃ e, CM.GeneratePyTorchJob k c p = (none, some e)) ↔
        ¬ (p.Resource.MasterLimits.2 = none ∧ p.Resource.WorkerLimits.2 = none)) ∧
      ¬ ((CM.GeneratePyTorchJob k c p).1 ≠ none ∧ (CM.GeneratePyTorchJob k c p).2 ≠ none) ∧
      ¬ ((CM.GeneratePyTorchJob k c p).1 = none ∧
          (CM.GeneratePyTorchJob k c p).2 = none)) := by
  constructor
  · rcases hps : p.Resource.PSLimits with ⟨ps, _ | e1⟩ <;>
      rcases hws : p.Resource.WorkerLimits with ⟨ws, _ | e2⟩ <;>
      simp [CM.GenerateTFJob, hps, hws]
  · rcases hms : p.Resource.MasterLimits with ⟨ms, _ | e1⟩ <;>
      rcases hws : p.Resource.WorkerLimits with ⟨ws, _ | e2⟩ <;>
      simp [CM.GeneratePyTorchJob, hms, hws]

/-! ## Shape of the generated descriptor -/

/-- C3: when the limits resolve, the replica-spec mapping of a TFJob has
exactly the two keys PS and Worker, and that of a PyTorchJob exactly the two
keys Master and Worker, whatever the role counts are. -/
theorem replica_spec_keys_are_the_roles (k : Consts) (c : CM) (p : Parameter) :
    (p.Resource.PSLimits.2 = none → p.Resource.WorkerLimits.2 = none →
      ∃ job, CM.GenerateTFJob k c p = (some job, none) ∧
        job.Spec.TFReplicaSpecs.length = 2 ∧
        (ReplicaSpecs.keys job.Spec.TFReplicaSpecs).Nodup ∧
        (∀ r, r ∈ ReplicaSpecs.keys job.Spec.TFReplicaSpecs ↔
          (r = TFReplicaTypePS ∨ r = TFReplicaTypeWorker)) ∧
        (∀ r, (ReplicaSpecs.get job.Spec.TFReplicaSpecs r).isSome = true ↔
          (r = TFReplicaTypePS ∨ r = TFReplicaTypeWorker))) ∧
    (p.Resource.MasterLimits.2 = none → p.Resource.WorkerLimits.2 = none →
      ∃ job, CM.GeneratePyTorchJob k c p = (some job, none) ∧
        job.Spec.PyTorchReplicaSpecs.length = 2 ∧
        (ReplicaSpecs.keys job.Spec.PyTorchReplicaSpecs).Nodup ∧
        (∀ r, r ∈ ReplicaSpecs.keys job.Spec.PyTorchReplicaSpecs ↔
          (r = PyTorchReplicaTypeMaster ∨ r = PyTorchReplicaTypeWorker)) ∧
        (∀ r, (ReplicaSpecs.get job.Spec.PyTorchReplicaSpecs r).isSome = true ↔
          (r = PyTorchReplicaTypeMaster ∨ r = PyTorchReplicaTypeWorker))) := by
  constructor
  · intro h1 h2
    have hp := pair_of_snd_none _ h1
    have hw := pair_of_snd_none _ h2
    simp only [CM.GenerateTFJob]
    rw [hp, hw]
    refine ⟨_, rfl, rfl, ?_, ?_, ?_⟩
    · simp [ReplicaSpecs.keys, TFReplicaTypePS, TFReplicaTypeWorker]
    · intro r
      simp [ReplicaSpecs.keys]
    · intro r
      simp only [ReplicaSpecs.get]
      by_cases ha : TFReplicaTypePS = r
      · subst ha
        simp
      · by_cases hb : TFReplicaTypeWorker = r
        · subst hb
          simp [ha]
        · simp [ha, hb, Ne.symm ha, Ne.symm hb]
  · intro h1 h2
    have hp := pair_of_snd_none _ h1
    have hw := pair_of_snd_none _ h2
    simp only [CM.GeneratePyTorchJob]
    rw [hp, hw]
    refine ⟨_, rfl, rfl, ?_, ?_, ?_⟩
    · simp [ReplicaSpecs.keys, PyTorchReplicaTypeMaster, PyTorchReplicaTypeWorker]
    · intro r
      simp [ReplicaSpecs.keys]
    · intro r
      simp only [ReplicaSpecs.get]
      by_cases ha : PyTorchReplicaTypeMaster = r
      · subst ha
        simp
      · by_cases hb : PyTorchReplicaTypeWorker = r
        · subst hb
          simp [ha]
        · simp [ha, hb, Ne.symm ha, Ne.symm hb]

/-- C3 on the scenario parameter, for both operations. -/
theorem replica_spec_keys_are_the_roles_witness :
    (∃ job, CM.GenerateTFJob sampleConsts (NewCM "ml-jobs") sampleParameter = (some job, none) ∧
        job.Spec.TFReplicaSpecs.length = 2 ∧
        (ReplicaSpecs.keys job.Spec.TFReplicaSpecs).Nodup ∧
        (∀ r, r ∈ ReplicaSpecs.keys job.Spec.TFReplicaSpecs ↔
          (r = TFReplicaTypePS ∨ r = TFReplicaTypeWorker)) ∧
        (∀ r, (ReplicaSpecs.get job.Spec.TFReplicaSpecs r).isSome = true ↔
          (r = TFReplicaTypePS ∨ r = TFReplicaTypeWorker))) ∧
    (∃ job, CM.GeneratePyTorchJob sampleConsts (NewCM "ml-jobs") sampleParameter
          = (some job, none) ∧
        job.Spec.PyTorchReplicaSpecs.length = 2 ∧
        (ReplicaSpecs.keys job.Spec.PyTorchReplicaSpecs).Nodup ∧
        (∀ r, r ∈ ReplicaSpecs.keys job.Spec.PyTorchReplicaSpecs ↔
          (r = PyTorchReplicaTypeMaster ∨ r = PyTorchReplicaTypeWorker)) ∧
        (∀ r, (ReplicaSpecs.get job.Spec.PyTorchReplicaSpecs r).isSome = true ↔
          (r = PyTorchReplicaTypeMaster ∨ r = PyTorchReplicaTypeWorker))) :=
  ⟨(replica_spec_keys_are_the_roles sampleConsts (NewCM "ml-jobs") sampleParameter).1 rfl rfl,
   (replica_spec_keys_are_the_roles sampleConsts (NewCM "ml-jobs") sampleParameter).2 rfl rfl⟩

/-- C4: for a non-empty image name whose limits resolve, every role entry of
the descriptor of either operation has one container whose single volume
mount is at the path "/" followed by the image name, and whose command is
the two tokens "python" and the path "/", image name, "/", entry-file name. -/
theorem mount_path_and_command (k : Consts) (c : CM) (p : Parameter) :
    (p.Image ≠ "" → p.Resource.PSLimits.2 = none → p.Resource.WorkerLimits.2 = none →
      ∃ job, CM.GenerateTFJob k c p = (some job, none) ∧
        ∀ entry ∈ job.Spec.TFReplicaSpecs,
          ∃ ct, entry.2.Template.Spec.Containers = [ct] ∧
            ct.VolumeMounts.map VolumeMount.MountPath = ["/" ++ p.Image] ∧
            ct.Command = ["python", "/" ++ p.Image ++ "/" ++ k.FileName]) ∧
    (p.Image ≠ "" → p.Resource.MasterLimits.2 = none → p.Resource.WorkerLimits.2 = none →
      ∃ job, CM.GeneratePyTorchJob k c p = (some job, none) ∧
        ∀ entry ∈ job.Spec.PyTorchReplicaSpecs,
          ∃ ct, entry.2.Template.Spec.Containers = [ct] ∧
            ct.VolumeMounts.map VolumeMount.MountPath = ["/" ++ p.Image] ∧
            ct.Command = ["python", "/" ++ p.Image ++ "/" ++ k.FileName]) := by
  constructor
  · intro _ h1 h2
    have hp := pair_of_snd_none _ h1
    have hw := pair_of_snd_none _ h2
    simp only [CM.GenerateTFJob]
    rw [hp, hw]
    refine ⟨_, rfl, ?_⟩
    intro entry hentry
    simp only [List.mem_cons, List.mem_singleton, List.not_mem_nil, or_false] at hentry
    rcases hentry with rfl | rfl <;> exact ⟨_, rfl, rfl, rfl⟩
  · intro _ h1 h2
    have hp := pair_of_snd_none _ h1
    have hw := pair_of_snd_none _ h2
    simp only [CM.GeneratePyTorchJob]
    rw [hp, hw]
    refine ⟨_, rfl, ?_⟩
    intro entry hentry
    simp only [List.mem_cons, List.mem_singleton, List.not_mem_nil, or_false] at hentry
    rcases hentry with rfl | rfl <;> exact ⟨_, rfl, rfl, rfl⟩

/-- C4 on the scenario parameter: image "mnist" is mounted at "/mnist" and
the command runs "/mnist/code.py". -/
theorem mount_path_and_command_witness :
    (∃ job, CM.GenerateTFJob sampleConsts (NewCM "ml-jobs") sampleParameter = (some job, none) ∧
        ∀ entry ∈ job.Spec.TFReplicaSpecs,
          ∃ ct, entry.2.Template.Spec.Containers = [ct] ∧
            ct.VolumeMounts.map VolumeMount.MountPath = ["/" ++ "mnist"] ∧
            ct.Command = ["python", "/" ++ "mnist" ++ "/" ++ "code.py"]) ∧
    (∃ job, CM.GeneratePyTorchJob sampleConsts (NewCM "ml-jobs") sampleParameter
          = (some job, none) ∧
        ∀ entry ∈ job.Spec.PyTorchReplicaSpecs,
          ∃ ct, entry.2.Template.Spec.Containers = [ct] ∧
            ct.VolumeMounts.map VolumeMount.MountPath = ["/" ++ "mnist"] ∧
            ct.Command = ["python", "/" ++ "mnist" ++ "/" ++ "code.py"]) :=
  ⟨(mount_path_and_command sampleConsts (NewCM "ml-jobs") sampleParameter).1
      (by decide) rfl rfl,
   (mount_path_and_command sampleConsts (NewCM "ml-jobs") sampleParameter).2
      (by decide) rfl rfl⟩

/-! ## Replica counts and resource limits -/

/-- C5: when the limits resolve and the role counts lie in the signed
32-bit range, the PS (resp. Master) entry carries the PS (resp. Master)
count and the Worker entry carries the Worker count, unaltered. -/
theorem replica_counts_are_the_input_counts (k : Consts) (c : CM) (p : Parameter) :
    (-2147483648 ≤ p.PSCount → p.PSCount ≤ 2147483647 →
      -2147483648 ≤ p.WorkerCount → p.WorkerCount ≤ 2147483647 →
      p.Resource.PSLimits.2 = none → p.Resource.WorkerLimits.2 = none →
      ∃ job, CM.GenerateTFJob k c p = (some job, none) ∧
        (ReplicaSpecs.get job.Spec.TFReplicaSpecs TFReplicaTypePS).map ReplicaSpec.Replicas
          = some (some p.PSCount) ∧
        (ReplicaSpecs.get job.Spec.TFReplicaSpecs TFReplicaTypeWorker).map ReplicaSpec.Replicas
          = some (some p.WorkerCount)) ∧
    (-2147483648 ≤ p.MasterCount → p.MasterCount ≤ 2147483647 →
      -2147483648 ≤ p.WorkerCount → p.WorkerCount ≤ 2147483647 →
      p.Resource.MasterLimits.2 = none → p.Resource.WorkerLimits.2 = none →
      ∃ job, CM.GeneratePyTorchJob k c p = (some job, none) ∧
        (ReplicaSpecs.get job.Spec.PyTorchReplicaSpecs PyTorchReplicaTypeMaster).map
            ReplicaSpec.Replicas
          = some (some p.MasterCount) ∧
        (ReplicaSpecs.get job.Spec.PyTorchReplicaSpecs PyTorchReplicaTypeWorker).map
            ReplicaSpec.Replicas
          = some (some p.WorkerCount)) := by
  constructor
  · intro ha hb hc hd h1 h2
    have hp := pair_of_snd_none _ h1
    have hw := pair_of_snd_none _ h2
    simp only [CM.GenerateTFJob]
    rw [hp, hw]
    refine ⟨_, rfl, ?_, ?_⟩
    · simp [ReplicaSpecs.get, int32_eq_self _ ha hb]
    · simp [ReplicaSpecs.get, TFReplicaTypePS, TFReplicaTypeWorker, int32_eq_self _ hc hd]
  · intro ha hb hc hd h1 h2
    have hp := pair_of_snd_none _ h1
    have hw := pair_of_snd_none _ h2
    simp only [CM.GeneratePyTorchJob]
    rw [hp, hw]
    refine ⟨_, rfl, ?_, ?_⟩
    · simp [ReplicaSpecs.get, int32_eq_self _ ha hb]
    · simp [ReplicaSpecs.get, PyTorchReplicaTypeMaster, PyTorchReplicaTypeWorker,
        int32_eq_self _ hc hd]

/-- C5 on the scenario parameter: two PS (or Master) replicas and three
Worker replicas. -/
theorem replica_counts_are_the_input_counts_witness :
    (∃ job, CM.GenerateTFJob sampleConsts (NewCM "ml-jobs") sampleParameter = (some job, none) ∧
        (ReplicaSpecs.get job.Spec.TFReplicaSpecs TFReplicaTypePS).map ReplicaSpec.Replicas
          = some (some 2) ∧
        (ReplicaSpecs.get job.Spec.TFReplicaSpecs TFReplicaTypeWorker).map ReplicaSpec.Replicas
          = some (some 3)) ∧
    (∃ job, CM.GeneratePyTorchJob sampleConsts (NewCM "ml-jobs") sampleParameter
          = (some job, none) ∧
        (ReplicaSpecs.get job.Spec.PyTorchReplicaSpecs PyTorchReplicaTypeMaster).map
            ReplicaSpec.Replicas
          = some (some 2) ∧
        (ReplicaSpecs.get job.Spec.PyTorchReplicaSpecs PyTorchReplicaTypeWorker).map
            ReplicaSpec.Replicas
          = some (some 3)) :=
  ⟨(replica_counts_are_the_input_counts sampleConsts (NewCM "ml-jobs") sampleParameter).1
      (by decide) (by decide) (by decide) (by decide) rfl rfl,
   (replica_counts_are_the_input_counts sampleConsts (NewCM "ml-jobs") sampleParameter).2
      (by decide) (by decide) (by decide) (by decide) rfl rfl⟩

/-- C6: when the limits resolve, the limits of each role's container are
the list returned by that role's own resolver: `PSLimits` for PS and
`WorkerLimits` for Worker in a TFJob, `MasterLimits` for Master and
`WorkerLimits` for Worker in a PyTorchJob. -/
theorem container_limits_are_the_role_limits (k : Consts) (c : CM) (p : Parameter) :
    (p.Resource.PSLimits.2 = none → p.Resource.WorkerLimits.2 = none →
      ∃ job, CM.GenerateTFJob k c p = (some job, none) ∧
        (ReplicaSpecs.get job.Spec.TFReplicaSpecs TFReplicaTypePS).map
            (fun rs => rs.Template.Spec.Containers.map (fun ct => ct.Resources.Limits))
          = some [p.Resource.PSLimits.1] ∧
        (ReplicaSpecs.get job.Spec.TFReplicaSpecs TFReplicaTypeWorker).map
            (fun rs => rs.Template.Spec.Containers.map (fun ct => ct.Resources.Limits))
          = some [p.Resource.WorkerLimits.1]) ∧
    (p.Resource.MasterLimits.2 = none → p.Resource.WorkerLimits.2 = none →
      ∃ job, CM.GeneratePyTorchJob k c p = (some job, none) ∧
        (ReplicaSpecs.get job.Spec.PyTorchReplicaSpecs PyTorchReplicaTypeMaster).map
            (fun rs => rs.Template.Spec.Containers.map (fun ct => ct.Resources.Limits))
          = some [p.Resource.MasterLimits.1] ∧
        (ReplicaSpecs.get job.Spec.PyTorchReplicaSpecs PyTorchReplicaTypeWorker).map
            (fun rs => rs.Template.Spec.Containers.map (fun ct => ct.Resources.Limits))
          = some [p.Resource.WorkerLimits.1]) := by
  constructor
  · intro h1 h2
    have hp := pair_of_snd_none _ h1
    have hw := pair_of_snd_none _ h2
    simp only [CM.GenerateTFJob]
    rw [hp, hw]
    refine ⟨_, rfl, ?_, ?_⟩
    · simp [ReplicaSpecs.get]
    · simp [ReplicaSpecs.get, TFReplicaTypePS, TFReplicaTypeWorker]
  · intro h1 h2
    have hp := pair_of_snd_none _ h1
    have hw := pair_of_snd_none _ h2
    simp only [CM.GeneratePyTorchJob]
    rw [hp, hw]
    refine ⟨_, rfl, ?_, ?_⟩
    · simp [ReplicaSpecs.get]
    · simp [ReplicaSpecs.get, PyTorchReplicaTypeMaster, PyTorchReplicaTypeWorker]

/-- C6 on the scenario parameter: 1 cpu and 2Gi on the PS (or Master)
container, 2 cpu and 4Gi on the Worker container. -/
theorem container_limits_are_the_role_limits_witness :
    (∃ job, CM.GenerateTFJob sampleConsts (NewCM "ml-jobs") sampleParameter = (some job, none) ∧
        (ReplicaSpecs.get job.Spec.TFReplicaSpecs TFReplicaTypePS).map
            (fun rs => rs.Template.Spec.Containers.map (fun ct => ct.Resources.Limits))
          = some [[("cpu", "1"), ("memory", "2Gi")]] ∧
        (ReplicaSpecs.get job.Spec.TFReplicaSpecs TFReplicaTypeWorker).map
            (fun rs => rs.Template.Spec.Containers.map (fun ct => ct.Resources.Limits))
          = some [[("cpu", "2"), ("memory", "4Gi")]]) ∧
    (∃ job, CM.GeneratePyTorchJob sampleConsts (NewCM "ml-jobs") sampleParameter
          = (some job, none) ∧
        (ReplicaSpecs.get job.Spec.PyTorchReplicaSpecs PyTorchReplicaTypeMaster).map
            (fun rs => rs.Template.Spec.Containers.map (fun ct => ct.Resources.Limits))
          = some [[("cpu", "1"), ("memory", "2Gi")]] ∧
        (ReplicaSpecs.get job.Spec.PyTorchReplicaSpecs PyTorchReplicaTypeWorker).map
            (fun rs => rs.Template.Spec.Containers.map (fun ct => ct.Resources.Limits))
          = some [[("cpu", "2"), ("memory", "4Gi")]]) :=
  ⟨(container_limits_are_the_role_limits sampleConsts (NewCM "ml-jobs") sampleParameter).1
      rfl rfl,
   (container_limits_are_the_role_limits sampleConsts (NewCM "ml-jobs") sampleParameter).2
      rfl rfl⟩

/-! ## Metadata and pod template -/

/-- C7: the generator built by `NewCM ns` has namespace `ns`, and when the
limits resolve the descriptor it returns has the name `GenerateName`, the
namespace `ns` and the kind of its framework. -/
theorem metadata_and_kind (k : Consts) (ns : String) (p : Parameter) :
    (NewCM ns).Namespace = ns ∧
    (p.Resource.PSLimits.2 = none → p.Resource.WorkerLimits.2 = none →
      ∃ job, CM.GenerateTFJob k (NewCM ns) p = (some job, none) ∧
        job.ObjectMeta.Name = p.GenerateName ∧
        job.ObjectMeta.Namespace = ns ∧
        job.TypeMeta.Kind = tfKind) ∧
    (p.Resource.MasterLimits.2 = none → p.Resource.WorkerLimits.2 = none →
      ∃ job, CM.GeneratePyTorchJob k (NewCM ns) p = (some job, none) ∧
        job.ObjectMeta.Name = p.GenerateName ∧
        job.ObjectMeta.Namespace = ns ∧
        job.TypeMeta.Kind = pytorchKind) := by
  refine ⟨rfl, ?_, ?_⟩
  · intro h1 h2
    have hp := pair_of_snd_none _ h1
    have hw := pair_of_snd_none _ h2
    simp only [CM.GenerateTFJob]
    rw [hp, hw]
    exact ⟨_, rfl, rfl, rfl, rfl⟩
  · intro h1 h2
    have hp := pair_of_snd_none _ h1
    have hw := pair_of_snd_none _ h2
    simp only [CM.GeneratePyTorchJob]
    rw [hp, hw]
    exact ⟨_, rfl, rfl, rfl, rfl⟩

/-- C7 on the scenario: namespace "ml-jobs", name "job-1", kinds "TFJob"
and "PyTorchJob". -/
theorem metadata_and_kind_witness :
    (NewCM "ml-jobs").Namespace = "ml-jobs" ∧
    (∃ job, CM.GenerateTFJob sampleConsts (NewCM "ml-jobs") sampleParameter = (some job, none) ∧
        job.ObjectMeta.Name = "job-1" ∧
        job.ObjectMeta.Namespace = "ml-jobs" ∧
        job.TypeMeta.Kind = "TFJob") ∧
    (∃ job, CM.GeneratePyTorchJob sampleConsts (NewCM "ml-jobs") sampleParameter
          = (some job, none) ∧
        job.ObjectMeta.Name = "job-1" ∧
        job.ObjectMeta.Namespace = "ml-jobs" ∧
        job.TypeMeta.Kind = "PyTorchJob") :=
  ⟨(metadata_and_kind sampleConsts "ml-jobs" sampleParameter).1,
   (metadata_and_kind sampleConsts "ml-jobs" sampleParameter).2.1 rfl rfl,
   (metadata_and_kind sampleConsts "ml-jobs" sampleParameter).2.2 rfl rfl⟩

/-- C8: when the limits resolve, every role entry has exactly one
container, exactly one volume and exactly one volume mount; the volume is
backed by a config map, the volume and the config map are both named after
the image, and the mount carries the name of the volume. -/
theorem pod_template_shape (k : Consts) (c : CM) (p : Parameter) :
    (p.Resource.PSLimits.2 = none → p.Resource.WorkerLimits.2 = none →
      ∃ job, CM.GenerateTFJob k c p = (some job, none) ∧
        ∀ entry ∈ job.Spec.TFReplicaSpecs,
          ∃ ct vol vm, entry.2.Template.Spec.Containers = [ct] ∧
            entry.2.Template.Spec.Volumes = [vol] ∧
            ct.VolumeMounts = [vm] ∧
            vol.Name = p.Image ∧
            vol.VolumeSource.ConfigMap.map (fun cmv => cmv.LocalObjectReference.Name)
              = some p.Image ∧
            vm.Name = vol.Name) ∧
    (p.Resource.MasterLimits.2 = none → p.Resource.WorkerLimits.2 = none →
      ∃ job, CM.GeneratePyTorchJob k c p = (some job, none) ∧
        ∀ entry ∈ job.Spec.PyTorchReplicaSpecs,
          ∃ ct vol vm, entry.2.Template.Spec.Containers = [ct] ∧
            entry.2.Template.Spec.Volumes = [vol] ∧
            ct.VolumeMounts = [vm] ∧
            vol.Name = p.Image ∧
            vol.VolumeSource.ConfigMap.map (fun cmv => cmv.LocalObjectReference.Name)
              = some p.Image ∧
            vm.Name = vol.Name) := by
  constructor
  · intro h1 h2
    have hp := pair_of_snd_none _ h1
    have hw := pair_of_snd_none _ h2
    simp only [CM.GenerateTFJob]
    rw [hp, hw]
    refine ⟨_, rfl, ?_⟩
    intro entry hentry
    simp only [List.mem_cons, List.mem_singleton, List.not_mem_nil, or_false] at hentry
    rcases hentry with rfl | rfl <;> exact ⟨_, _, _, rfl, rfl, rfl, rfl, rfl, rfl⟩
  · intro h1 h2
    have hp := pair_of_snd_none _ h1
    have hw := pair_of_snd_none _ h2
    simp only [CM.GeneratePyTorchJob]
    rw [hp, hw]
    refine ⟨_, rfl, ?_⟩
    intro entry hentry
    simp only [List.mem_cons, List.mem_singleton, List.not_mem_nil, or_false] at hentry
    rcases hentry with rfl | rfl <;> exact ⟨_, _, _, rfl, rfl, rfl, rfl, rfl, rfl⟩

/-- C8 on the scenario parameter: one container, one volume named "mnist"
backed by the config map "mnist", one mount of that volume. -/
theorem pod_template_shape_witness :
    (∃ job, CM.GenerateTFJob sampleConsts (NewCM "ml-jobs") sampleParameter = (some job, none) ∧
        ∀ entry ∈ job.Spec.TFReplicaSpecs,
          ∃ ct vol vm, entry.2.Template.Spec.Containers = [ct] ∧
            entry.2.Template.Spec.Volumes = [vol] ∧
            ct.VolumeMounts = [vm] ∧
            vol.Name = "mnist" ∧
            vol.VolumeSource.ConfigMap.map (fun cmv => cmv.LocalObjectReference.Name)
              = some "mnist" ∧
            vm.Name = vol.Name) ∧
    (∃ job, CM.GeneratePyTorchJob sampleConsts (NewCM "ml-jobs") sampleParameter
          = (some job, none) ∧
        ∀ entry ∈ job.Spec.PyTorchReplicaSpecs,
          ∃ ct vol vm, entry.2.Template.Spec.Containers = [ct] ∧
            entry.2.Template.Spec.Volumes = [vol] ∧
            ct.VolumeMounts = [vm] ∧
            vol.Name = "mnist" ∧
            vol.VolumeSource.ConfigMap.map (fun cmv => cmv.LocalObjectReference.Name)
              = some "mnist" ∧
            vm.Name = vol.Name) :=
  ⟨(pod_template_shape sampleConsts (NewCM "ml-jobs") sampleParameter).1 rfl rfl,
   (pod_template_shape sampleConsts (NewCM "ml-jobs") sampleParameter).2 rfl rfl⟩

/-! ## The two roles of one descriptor -/

/-- C9: when the limits resolve, the two replica specs of a descriptor
differ only by replica count and resource limits: the first role's spec (PS
or Master) with its count and container limits overwritten by those of the
Worker spec is the Worker spec, so that container name, base image, command,
volume mounts and volumes coincide. -/
theorem roles_differ_only_in_count_and_limits (k : Consts) (c : CM) (p : Parameter) :
    (p.Resource.PSLimits.2 = none → p.Resource.WorkerLimits.2 = none →
      ∃ job, CM.GenerateTFJob k c p = (some job, none) ∧
        ∃ first worker,
          ReplicaSpecs.get job.Spec.TFReplicaSpecs TFReplicaTypePS = some first ∧
          ReplicaSpecs.get job.Spec.TFReplicaSpecs TFReplicaTypeWorker = some worker ∧
          first.withCountAndLimitsOf worker = worker ∧
          first.Template.Spec.Containers.map Container.shape
            = worker.Template.Spec.Containers.map Container.shape ∧
          first.Template.Spec.Volumes = worker.Template.Spec.Volumes) ∧
    (p.Resource.MasterLimits.2 = none → p.Resource.WorkerLimits.2 = none →
      ∃ job, CM.GeneratePyTorchJob k c p = (some job, none) ∧
        ∃ first worker,
          ReplicaSpecs.get job.Spec.PyTorchReplicaSpecs PyTorchReplicaTypeMaster = some first ∧
          ReplicaSpecs.get job.Spec.PyTorchReplicaSpecs PyTorchReplicaTypeWorker = some worker ∧
          first.withCountAndLimitsOf worker = worker ∧
          first.Template.Spec.Containers.map Container.shape
            = worker.Template.Spec.Containers.map Container.shape ∧
          first.Template.Spec.Volumes = worker.Template.Spec.Volumes) := by
  constructor
  · intro h1 h2
    have hp := pair_of_snd_none _ h1
    have hw := pair_of_snd_none _ h2
    simp only [CM.GenerateTFJob]
    rw [hp, hw]
    refine ⟨_, rfl, ?_⟩
    have hne : ¬ TFReplicaTypePS = TFReplicaTypeWorker := by decide
    simp only [ReplicaSpecs.get, hne, if_false, if_true]
    exact ⟨_, _, rfl, rfl, rfl, rfl, rfl⟩
  · intro h1 h2
    have hp := pair_of_snd_none _ h1
    have hw := pair_of_snd_none _ h2
    simp only [CM.GeneratePyTorchJob]
    rw [hp, hw]
    refine ⟨_, rfl, ?_⟩
    have hne : ¬ PyTorchReplicaTypeMaster = PyTorchReplicaTypeWorker := by decide
    simp only [ReplicaSpecs.get, hne, if_false, if_true]
    exact ⟨_, _, rfl, rfl, rfl, rfl, rfl⟩

/-- C9 on the scenario parameter, for both operations. -/
theorem roles_differ_only_in_count_and_limits_witness :
    (∃ job, CM.GenerateTFJob sampleConsts (NewCM "ml-jobs") sampleParameter = (some job, none) ∧
        ∃ first worker,
          ReplicaSpecs.get job.Spec.TFReplicaSpecs TFReplicaTypePS = some first ∧
          ReplicaSpecs.get job.Spec.TFReplicaSpecs TFReplicaTypeWorker = some worker ∧
          first.withCountAndLimitsOf worker = worker ∧
          first.Template.Spec.Containers.map Container.shape
            = worker.Template.Spec.Containers.map Container.shape ∧
          first.Template.Spec.Volumes = worker.Template.Spec.Volumes) ∧
    (∃ job, CM.GeneratePyTorchJob sampleConsts (NewCM "ml-jobs") sampleParameter
          = (some job, none) ∧
        ∃ first worker,
          ReplicaSpecs.get job.Spec.PyTorchReplicaSpecs PyTorchReplicaTypeMaster = some first ∧
          ReplicaSpecs.get job.Spec.PyTorchReplicaSpecs PyTorchReplicaTypeWorker = some worker ∧
          first.withCountAndLimitsOf worker = worker ∧
          first.Template.Spec.Containers.map Container.shape
            = worker.Template.Spec.Containers.map Container.shape ∧
          first.Template.Spec.Volumes = worker.Template.Spec.Volumes) :=
  ⟨(roles_differ_only_in_count_and_limits sampleConsts (NewCM "ml-jobs") sampleParameter).1
      rfl rfl,
   (roles_differ_only_in_count_and_limits sampleConsts (NewCM "ml-jobs") sampleParameter).2
      rfl rfl⟩

/-! ## Referential stability -/

/-- C10: two calls of the same operation, made in any two ambient states,
on generators with equal namespaces and on parameters with equal fields whose
resolver calls return equal results, have equal outcomes: both return the
same descriptor, the resolver calls having succeeded, or both return the same
error, which is the error of the first resolver call that failed.  Nothing
but the namespace, the parameter's fields and the results of the resolver
calls reaches the outcome. -/
theorem equal_inputs_give_equal_outcomes {σ : Type} (k : Consts) (c₁ c₂ : CM)
    (p₁ p₂ : StatefulParameter σ) (s₁ s₂ : σ) :
    c₁.Namespace = c₂.Namespace →
    p₁.GenerateName = p₂.GenerateName → p₁.Image = p₂.Image →
    p₁.CleanPolicy = p₂.CleanPolicy →
    p₁.PSCount = p₂.PSCount → p₁.WorkerCount = p₂.WorkerCount →
    p₁.MasterCount = p₂.MasterCount →
    ((p₁.Resource.PSLimits s₁).1 = (p₂.Resource.PSLimits s₂).1 →
      (p₁.Resource.WorkerLimits (p₁.Resource.PSLimits s₁).2).1
        = (p₂.Resource.WorkerLimits (p₂.Resource.PSLimits s₂).2).1 →
      AgreeingOutcomes (CM.GenerateTFJobIn k c₁ p₁ s₁).1 (CM.GenerateTFJobIn k c₂ p₂ s₂).1
        (p₁.Resource.PSLimits s₁).1
        (p₁.Resource.WorkerLimits (p₁.Resource.PSLimits s₁).2).1) ∧
    ((p₁.Resource.MasterLimits s₁).1 = (p₂.Resource.MasterLimits s₂).1 →
      (p₁.Resource.WorkerLimits (p₁.Resource.MasterLimits s₁).2).1
        = (p₂.Resource.WorkerLimits (p₂.Resource.MasterLimits s₂).2).1 →
      AgreeingOutcomes (CM.GeneratePyTorchJobIn k c₁ p₁ s₁).1 (CM.GeneratePyTorchJobIn k c₂ p₂ s₂).1
        (p₁.Resource.MasterLimits s₁).1
        (p₁.Resource.WorkerLimits (p₁.Resource.MasterLimits s₁).2).1) := by
  intro hns hname himage hpolicy hps hwc hmc
  constructor
  · intro hfirst hworker
    rcases h₁ : p₁.Resource.PSLimits s₁ with ⟨⟨r₁, e₁⟩, t₁⟩
    rcases h₂ : p₂.Resource.PSLimits s₂ with ⟨⟨r₂, e₂⟩, t₂⟩
    rw [h₁, h₂] at hfirst hworker
    simp only [Prod.mk.injEq] at hfirst
    obtain ⟨hr, he⟩ := hfirst
    subst hr he
    rcases e₁ with _ | e₁
    · rcases hw₁ : p₁.Resource.WorkerLimits t₁ with ⟨⟨w₁, f₁⟩, u₁⟩
      rcases hw₂ : p₂.Resource.WorkerLimits t₂ with ⟨⟨w₂, f₂⟩, u₂⟩
      rw [hw₁, hw₂] at hworker
      simp only [Prod.mk.injEq] at hworker
      obtain ⟨hr, he⟩ := hworker
      subst hr he
      rcases f₁ with _ | f₁ <;>
        simp [AgreeingOutcomes, CM.GenerateTFJobIn, h₁, h₂, hw₁, hw₂, hns, hname, himage, hpolicy,
          hps, hwc, hmc]
    · simp [AgreeingOutcomes, CM.GenerateTFJobIn, h₁, h₂]
  · intro hfirst hworker
    rcases h₁ : p₁.Resource.MasterLimits s₁ with ⟨⟨r₁, e₁⟩, t₁⟩
    rcases h₂ : p₂.Resource.MasterLimits s₂ with ⟨⟨r₂, e₂⟩, t₂⟩
    rw [h₁, h₂] at hfirst hworker
    simp only [Prod.mk.injEq] at hfirst
    obtain ⟨hr, he⟩ := hfirst
    subst hr he
    rcases e₁ with _ | e₁
    · rcases hw₁ : p₁.Resource.WorkerLimits t₁ with ⟨⟨w₁, f₁⟩, u₁⟩
      rcases hw₂ : p₂.Resource.WorkerLimits t₂ with ⟨⟨w₂, f₂⟩, u₂⟩
      rw [hw₁, hw₂] at hworker
      simp only [Prod.mk.injEq] at hworker
      obtain ⟨hr, he⟩ := hworker
      subst hr he
      rcases f₁ with _ | f₁ <;>
        simp [AgreeingOutcomes, CM.GeneratePyTorchJobIn, h₁, h₂, hw₁, hw₂, hns, hname, himage, hpolicy,
          hps, hwc, hmc]
    · simp [AgreeingOutcomes, CM.GeneratePyTorchJobIn, h₁, h₂]

/-- C10 on two separately built generators for "ml-jobs" and two separately
built parameters over a call-counting resolver: a call with the counter at 0
and a call with the counter at 41 return the same descriptor, and a call with
the counter at 100 and a call with the counter at 250 return the same
error. -/
theorem equal_inputs_give_equal_outcomes_witness :
    AgreeingOutcomes
        (CM.GenerateTFJobIn sampleConsts (NewCM "ml-jobs") countingParameter 0).1
        (CM.GenerateTFJobIn sampleConsts { Namespace := "ml-jobs" } countingParameterAgain 41).1
        (countingParameter.Resource.PSLimits 0).1
        (countingParameter.Resource.WorkerLimits (countingParameter.Resource.PSLimits 0).2).1 ∧
      AgreeingOutcomes
        (CM.GeneratePyTorchJobIn sampleConsts (NewCM "ml-jobs") countingParameter 0).1
        (CM.GeneratePyTorchJobIn sampleConsts { Namespace := "ml-jobs" } countingParameterAgain 41).1
        (countingParameter.Resource.MasterLimits 0).1
        (countingParameter.Resource.WorkerLimits (countingParameter.Resource.MasterLimits 0).2).1 ∧
      AgreeingOutcomes
        (CM.GenerateTFJobIn sampleConsts (NewCM "ml-jobs") countingParameter 100).1
        (CM.GenerateTFJobIn sampleConsts { Namespace := "ml-jobs" } countingParameterAgain 250).1
        (countingParameter.Resource.PSLimits 100).1
        (countingParameter.Resource.WorkerLimits (countingParameter.Resource.PSLimits 100).2).1 ∧
      AgreeingOutcomes
        (CM.GeneratePyTorchJobIn sampleConsts (NewCM "ml-jobs") countingParameter 100).1
        (CM.GeneratePyTorchJobIn sampleConsts { Namespace := "ml-jobs" } countingParameterAgain 250).1
        (countingParameter.Resource.MasterLimits 100).1
        (countingParameter.Resource.WorkerLimits (countingParameter.Resource.MasterLimits 100).2).1 :=
  ⟨(equal_inputs_give_equal_outcomes sampleConsts (NewCM "ml-jobs") { Namespace := "ml-jobs" }
      countingParameter countingParameterAgain 0 41
      rfl (by decide) rfl rfl (by decide) (by decide) (by decide)).1 rfl rfl,
   (equal_inputs_give_equal_outcomes sampleConsts (NewCM "ml-jobs") { Namespace := "ml-jobs" }
      countingParameter countingParameterAgain 0 41
      rfl (by decide) rfl rfl (by decide) (by decide) (by decide)).2 rfl rfl,
   (equal_inputs_give_equal_outcomes sampleConsts (NewCM "ml-jobs") { Namespace := "ml-jobs" }
      countingParameter countingParameterAgain 100 250
      rfl (by decide) rfl rfl (by decide) (by decide) (by decide)).1 rfl rfl,
   (equal_inputs_give_equal_outcomes sampleConsts (NewCM "ml-jobs") { Namespace := "ml-jobs" }
      countingParameter countingParameterAgain 100 250
      rfl (by decide) rfl rfl (by decide) (by decide) (by decide)).2 rfl rfl⟩

/-! ## Clean policy and framework constants -/

/-- C11: when the limits resolve, the descriptor of either operation
carries a clean-pod policy that is present and equal to the parameter's
clean policy, whatever that value is: recognised, unknown or empty. -/
theorem clean_policy_is_passed_through (k : Consts) (c : CM) (p : Parameter) :
    (p.Resource.PSLimits.2 = none → p.Resource.WorkerLimits.2 = none →
      ∃ job, CM.GenerateTFJob k c p = (some job, none) ∧
        job.Spec.CleanPodPolicy ≠ none ∧
        job.Spec.CleanPodPolicy = some p.CleanPolicy) ∧
    (p.Resource.MasterLimits.2 = none → p.Resource.WorkerLimits.2 = none →
      ∃ job, CM.GeneratePyTorchJob k c p = (some job, none) ∧
        job.Spec.CleanPodPolicy ≠ none ∧
        job.Spec.CleanPodPolicy = some p.CleanPolicy) := by
  constructor
  · intro h1 h2
    have hp := pair_of_snd_none _ h1
    have hw := pair_of_snd_none _ h2
    simp only [CM.GenerateTFJob]
    rw [hp, hw]
    exact ⟨_, rfl, Option.some_ne_none _, rfl⟩
  · intro h1 h2
    have hp := pair_of_snd_none _ h1
    have hw := pair_of_snd_none _ h2
    simp only [CM.GeneratePyTorchJob]
    rw [hp, hw]
    exact ⟨_, rfl, Option.some_ne_none _, rfl⟩

/-- C11 on an unknown policy and on the empty policy, for both operations. -/
theorem clean_policy_is_passed_through_witness :
    (∃ job, CM.GenerateTFJob sampleConsts (NewCM "ml-jobs") unknownPolicyParameter
          = (some job, none) ∧
        job.Spec.CleanPodPolicy ≠ none ∧
        job.Spec.CleanPodPolicy = some "NoSuchPolicy") ∧
    (∃ job, CM.GenerateTFJob sampleConsts (NewCM "ml-jobs") emptyPolicyParameter
          = (some job, none) ∧
        job.Spec.CleanPodPolicy ≠ none ∧
        job.Spec.CleanPodPolicy = some "") ∧
    (∃ job, CM.GeneratePyTorchJob sampleConsts (NewCM "ml-jobs") unknownPolicyParameter
          = (some job, none) ∧
        job.Spec.CleanPodPolicy ≠ none ∧
        job.Spec.CleanPodPolicy = some "NoSuchPolicy") ∧
    (∃ job, CM.GeneratePyTorchJob sampleConsts (NewCM "ml-jobs") emptyPolicyParameter
          = (some job, none) ∧
        job.Spec.CleanPodPolicy ≠ none ∧
        job.Spec.CleanPodPolicy = some "") :=
  ⟨(clean_policy_is_passed_through sampleConsts (NewCM "ml-jobs") unknownPolicyParameter).1
      rfl rfl,
   (clean_policy_is_passed_through sampleConsts (NewCM "ml-jobs") emptyPolicyParameter).1
      rfl rfl,
   (clean_policy_is_passed_through sampleConsts (NewCM "ml-jobs") unknownPolicyParameter).2
      rfl rfl,
   (clean_policy_is_passed_through sampleConsts (NewCM "ml-jobs") emptyPolicyParameter).2
      rfl rfl⟩

/-- C12: when the limits resolve, the container of every role of a TFJob
has the image "tensorflow/tensorflow:1.10.1-py3" and the TensorFlow container
name, and the container of every role of a PyTorchJob has the image
"pytorch/pytorch:v0.2" and the PyTorch container name; the container image is
that constant whatever the parameter's image is. -/
theorem container_image_and_name_are_fixed (k : Consts) (c : CM) (p : Parameter) :
    (p.Resource.PSLimits.2 = none → p.Resource.WorkerLimits.2 = none →
      ∃ job, CM.GenerateTFJob k c p = (some job, none) ∧
        ∀ entry ∈ job.Spec.TFReplicaSpecs,
          ∃ ct, entry.2.Template.Spec.Containers = [ct] ∧
            ct.Image = "tensorflow/tensorflow:1.10.1-py3" ∧
            ct.Name = k.defaultContainerNameTF ∧
            (p.Image ≠ "tensorflow/tensorflow:1.10.1-py3" → ct.Image ≠ p.Image)) ∧
    (p.Resource.MasterLimits.2 = none → p.Resource.WorkerLimits.2 = none →
      ∃ job, CM.GeneratePyTorchJob k c p = (some job, none) ∧
        ∀ entry ∈ job.Spec.PyTorchReplicaSpecs,
          ∃ ct, entry.2.Template.Spec.Containers = [ct] ∧
            ct.Image = "pytorch/pytorch:v0.2" ∧
            ct.Name = k.defaultContainerNamePyTorch ∧
            (p.Image ≠ "pytorch/pytorch:v0.2" → ct.Image ≠ p.Image)) := by
  constructor
  · intro h1 h2
    have hp := pair_of_snd_none _ h1
    have hw := pair_of_snd_none _ h2
    simp only [CM.GenerateTFJob]
    rw [hp, hw]
    refine ⟨_, rfl, ?_⟩
    intro entry hentry
    simp only [List.mem_cons, List.mem_singleton, List.not_mem_nil, or_false] at hentry
    rcases hentry with rfl | rfl <;> exact ⟨_, rfl, rfl, rfl, fun h => Ne.symm h⟩
  · intro h1 h2
    have hp := pair_of_snd_none _ h1
    have hw := pair_of_snd_none _ h2
    simp only [CM.GeneratePyTorchJob]
    rw [hp, hw]
    refine ⟨_, rfl, ?_⟩
    intro entry hentry
    simp only [List.mem_cons, List.mem_singleton, List.not_mem_nil, or_false] at hentry
    rcases hentry with rfl | rfl <;> exact ⟨_, rfl, rfl, rfl, fun h => Ne.symm h⟩

/-- C12 on the scenario parameter, whose image is "mnist". -/
theorem container_image_and_name_are_fixed_witness :
    (∃ job, CM.GenerateTFJob sampleConsts (NewCM "ml-jobs") sampleParameter = (some job, none) ∧
        ∀ entry ∈ job.Spec.TFReplicaSpecs,
          ∃ ct, entry.2.Template.Spec.Containers = [ct] ∧
            ct.Image = "tensorflow/tensorflow:1.10.1-py3" ∧
            ct.Name = "tensorflow" ∧
            ("mnist" ≠ "tensorflow/tensorflow:1.10.1-py3" → ct.Image ≠ "mnist")) ∧
    (∃ job, CM.GeneratePyTorchJob sampleConsts (NewCM "ml-jobs") sampleParameter
          = (some job, none) ∧
        ∀ entry ∈ job.Spec.PyTorchReplicaSpecs,
          ∃ ct, entry.2.Template.Spec.Containers = [ct] ∧
            ct.Image = "pytorch/pytorch:v0.2" ∧
            ct.Name = "pytorch" ∧
            ("mnist" ≠ "pytorch/pytorch:v0.2" → ct.Image ≠ "mnist")) :=
  ⟨(container_image_and_name_are_fixed sampleConsts (NewCM "ml-jobs") sampleParameter).1
      rfl rfl,
   (container_image_and_name_are_fixed sampleConsts (NewCM "ml-jobs") sampleParameter).2
      rfl rfl⟩

/-! ## Order of resolution -/

/-- C13: when both resolvers of an operation fail, the first role's error
is the one returned: the error of `PSLimits` for `GenerateTFJob` and of
`MasterLimits` for `GeneratePyTorchJob`, not the error of `WorkerLimits`. -/
theorem first_role_error_wins (k : Consts) (c : CM) (p : Parameter) (e₁ e₂ : GoError) :
    (p.Resource.PSLimits.2 = some e₁ → p.Resource.WorkerLimits.2 = some e₂ →
      CM.GenerateTFJob k c p = (none, some e₁) ∧
      (e₁ ≠ e₂ → CM.GenerateTFJob k c p ≠ (none, some e₂))) ∧
    (p.Resource.MasterLimits.2 = some e₁ → p.Resource.WorkerLimits.2 = some e₂ →
      CM.GeneratePyTorchJob k c p = (none, some e₁) ∧
      (e₁ ≠ e₂ → CM.GeneratePyTorchJob k c p ≠ (none, some e₂))) := by
  constructor
  · intro h1 _
    have hp := pair_of_snd_some _ _ h1
    have hres : CM.GenerateTFJob k c p = (none, some e₁) := by
      simp only [CM.GenerateTFJob]
      rw [hp]
    refine ⟨hres, fun hne heq => hne ?_⟩
    rw [hres] at heq
    simpa using heq
  · intro h1 _
    have hp := pair_of_snd_some _ _ h1
    have hres : CM.GeneratePyTorchJob k c p = (none, some e₁) := by
      simp only [CM.GeneratePyTorchJob]
      rw [hp]
    refine ⟨hres, fun hne heq => hne ?_⟩
    rw [hres] at heq
    simpa using heq

/-- C13 on a resolver failing on every role with distinct errors. -/
theorem first_role_error_wins_witness :
    (CM.GenerateTFJob sampleConsts (NewCM "ml-jobs") allFailParameter
        = (none, some "malformed ps quantity") ∧
      ("malformed ps quantity" ≠ "malformed worker quantity" →
        CM.GenerateTFJob sampleConsts (NewCM "ml-jobs") allFailParameter
          ≠ (none, some "malformed worker quantity"))) ∧
    (CM.GeneratePyTorchJob sampleConsts (NewCM "ml-jobs") allFailParameter
        = (none, some "malformed master quantity") ∧
      ("malformed master quantity" ≠ "malformed worker quantity" →
        CM.GeneratePyTorchJob sampleConsts (NewCM "ml-jobs") allFailParameter
          ≠ (none, some "malformed worker quantity"))) :=
  ⟨(first_role_error_wins sampleConsts (NewCM "ml-jobs") allFailParameter
      "malformed ps quantity" "malformed worker quantity").1 rfl rfl,
   (first_role_error_wins sampleConsts (NewCM "ml-jobs") allFailParameter
      "malformed master quantity" "malformed worker quantity").2 rfl rfl⟩

/-! ## One algorithm, two frameworks -/

/-- C14: let the master role take the count and the resolver result of the
parameter-server role.  Then `GeneratePyTorchJob` fails exactly when
`GenerateTFJob` fails on the original parameter, with the same error, and
otherwise its descriptor is the TFJob descriptor after renaming the kind tag,
the role key PS into Master, the container name and the base image. -/
theorem pytorch_job_is_renamed_tf_job (k : Consts) (c : CM) (p : Parameter) :
    (CM.GeneratePyTorchJob k c p.withMasterFromPS).2 = (CM.GenerateTFJob k c p).2 ∧
    (CM.GeneratePyTorchJob k c p.withMasterFromPS).1
      = (CM.GenerateTFJob k c p).1.map (TFJob.renameToPyTorch k) ∧
    (∀ e, CM.GeneratePyTorchJob k c p.withMasterFromPS = (none, some e) ↔
      CM.GenerateTFJob k c p = (none, some e)) ∧
    (∀ job, CM.GenerateTFJob k c p = (some job, none) ↔
      (CM.GeneratePyTorchJob k c p.withMasterFromPS = (some (job.renameToPyTorch k), none) ∧
        (CM.GenerateTFJob k c p).1 = some job)) := by
  have hne : ¬ ("Worker" : String) = "PS" := by decide
  rcases hps : p.Resource.PSLimits with ⟨ps, _ | e1⟩ <;>
    rcases hws : p.Resource.WorkerLimits with ⟨ws, _ | e2⟩ <;>
    simp [CM.GenerateTFJob, CM.GeneratePyTorchJob, Parameter.withMasterFromPS, hps, hws,
      TFJob.renameToPyTorch, ReplicaSpec.renameToPyTorch, Container.renameToPyTorch,
      renameString, hne, PyTorchReplicaTypeWorker, TFReplicaTypeWorker, TFReplicaTypePS]

/-! ## Roles of the other framework -/

/-- C15: `GenerateTFJob` gives equal outcomes on two parameters that differ
only in the master count and in what `MasterLimits` returns, and
`GeneratePyTorchJob` on two parameters that differ only in the
parameter-server count and in what `PSLimits` returns.  In particular
`GenerateTFJob` succeeds when `MasterLimits` fails, and `GeneratePyTorchJob`
when `PSLimits` fails, provided their own roles resolve. -/
theorem other_role_is_ignored (k : Consts) (c : CM) (p₁ p₂ : Parameter) :
    (p₁.GenerateName = p₂.GenerateName → p₁.Image = p₂.Image →
      p₁.CleanPolicy = p₂.CleanPolicy →
      p₁.PSCount = p₂.PSCount → p₁.WorkerCount = p₂.WorkerCount →
      p₁.Resource.PSLimits = p₂.Resource.PSLimits →
      p₁.Resource.WorkerLimits = p₂.Resource.WorkerLimits →
      CM.GenerateTFJob k c p₁ = CM.GenerateTFJob k c p₂) ∧
    (p₁.GenerateName = p₂.GenerateName → p₁.Image = p₂.Image →
      p₁.CleanPolicy = p₂.CleanPolicy →
      p₁.MasterCount = p₂.MasterCount → p₁.WorkerCount = p₂.WorkerCount →
      p₁.Resource.MasterLimits = p₂.Resource.MasterLimits →
      p₁.Resource.WorkerLimits = p₂.Resource.WorkerLimits →
      CM.GeneratePyTorchJob k c p₁ = CM.GeneratePyTorchJob k c p₂) ∧
    (p₁.Resource.MasterLimits.2 ≠ none →
      p₁.Resource.PSLimits.2 = none → p₁.Resource.WorkerLimits.2 = none →
      ∃ job, CM.GenerateTFJob k c p₁ = (some job, none)) ∧
    (p₁.Resource.PSLimits.2 ≠ none →
      p₁.Resource.MasterLimits.2 = none → p₁.Resource.WorkerLimits.2 = none →
      ∃ job, CM.GeneratePyTorchJob k c p₁ = (some job, none)) := by
  refine ⟨?_, ?_, ?_, ?_⟩
  · intro hname himage hpolicy hps hworker hpsl hwl
    simp only [CM.GenerateTFJob, hname, himage, hpolicy, hps, hworker, hpsl, hwl]
  · intro hname himage hpolicy hmaster hworker hml hwl
    simp only [CM.GeneratePyTorchJob, hname, himage, hpolicy, hmaster, hworker, hml, hwl]
  · intro _ h1 h2
    have hp := pair_of_snd_none _ h1
    have hw := pair_of_snd_none _ h2
    simp only [CM.GenerateTFJob]
    rw [hp, hw]
    exact ⟨_, rfl⟩
  · intro _ h1 h2
    have hp := pair_of_snd_none _ h1
    have hw := pair_of_snd_none _ h2
    simp only [CM.GeneratePyTorchJob]
    rw [hp, hw]
    exact ⟨_, rfl⟩

/-- C15 on the scenario parameter and on its variants with another master
(resp. parameter-server) count and a failing master (resp. parameter-server)
resolver. -/
theorem other_role_is_ignored_witness :
    CM.GenerateTFJob sampleConsts (NewCM "ml-jobs") otherMasterParameter
        = CM.GenerateTFJob sampleConsts (NewCM "ml-jobs") sampleParameter ∧
      CM.GeneratePyTorchJob sampleConsts (NewCM "ml-jobs") otherPSParameter
        = CM.GeneratePyTorchJob sampleConsts (NewCM "ml-jobs") sampleParameter ∧
      (∃ job, CM.GenerateTFJob sampleConsts (NewCM "ml-jobs") otherMasterParameter
        = (some job, none)) ∧
      (∃ job, CM.GeneratePyTorchJob sampleConsts (NewCM "ml-jobs") otherPSParameter
        = (some job, none)) :=
  ⟨(other_role_is_ignored sampleConsts (NewCM "ml-jobs") otherMasterParameter
      sampleParameter).1 rfl rfl rfl rfl rfl rfl rfl,
   (other_role_is_ignored sampleConsts (NewCM "ml-jobs") otherPSParameter
      sampleParameter).2.1 rfl rfl rfl rfl rfl rfl rfl,
   (other_role_is_ignored sampleConsts (NewCM "ml-jobs") otherMasterParameter
      sampleParameter).2.2.1 (by decide) rfl rfl,
   (other_role_is_ignored sampleConsts (NewCM "ml-jobs") otherPSParameter
      sampleParameter).2.2.2 (by decide) rfl rfl⟩

/-! ## Counts outside the signed 32-bit range -/

/-- C16, as amended: a role count that is any 64-bit integer is neither
rejected nor clamped: when the limits resolve the operation succeeds, and the replica
count of the role is the one value of the signed 32-bit range congruent to the
count modulo `2^32`; a negative count of the signed 32-bit range is carried
through unchanged. -/
theorem wide_counts_are_truncated (k : Consts) (c : CM) (p : Parameter) :
    (-9223372036854775808 ≤ p.PSCount → p.PSCount ≤ 9223372036854775807 →
      -9223372036854775808 ≤ p.WorkerCount → p.WorkerCount ≤ 9223372036854775807 →
      p.Resource.PSLimits.2 = none → p.Resource.WorkerLimits.2 = none →
      ∃ job, CM.GenerateTFJob k c p = (some job, none) ∧
        ∃ r₁ r₂,
          (ReplicaSpecs.get job.Spec.TFReplicaSpecs TFReplicaTypePS).map ReplicaSpec.Replicas
            = some (some r₁) ∧
          (ReplicaSpecs.get job.Spec.TFReplicaSpecs TFReplicaTypeWorker).map ReplicaSpec.Replicas
            = some (some r₂) ∧
          IsInt32Of p.PSCount r₁ ∧ (∀ r, IsInt32Of p.PSCount r → r = r₁) ∧
          (-2147483648 ≤ p.PSCount → p.PSCount < 0 → r₁ = p.PSCount) ∧
          IsInt32Of p.WorkerCount r₂ ∧ (∀ r, IsInt32Of p.WorkerCount r → r = r₂) ∧
          (-2147483648 ≤ p.WorkerCount → p.WorkerCount < 0 → r₂ = p.WorkerCount)) ∧
    (-9223372036854775808 ≤ p.MasterCount → p.MasterCount ≤ 9223372036854775807 →
      -9223372036854775808 ≤ p.WorkerCount → p.WorkerCount ≤ 9223372036854775807 →
      p.Resource.MasterLimits.2 = none → p.Resource.WorkerLimits.2 = none →
      ∃ job, CM.GeneratePyTorchJob k c p = (some job, none) ∧
        ∃ r₁ r₂,
          (ReplicaSpecs.get job.Spec.PyTorchReplicaSpecs PyTorchReplicaTypeMaster).map
              ReplicaSpec.Replicas
            = some (some r₁) ∧
          (ReplicaSpecs.get job.Spec.PyTorchReplicaSpecs PyTorchReplicaTypeWorker).map
              ReplicaSpec.Replicas
            = some (some r₂) ∧
          IsInt32Of p.MasterCount r₁ ∧ (∀ r, IsInt32Of p.MasterCount r → r = r₁) ∧
          (-2147483648 ≤ p.MasterCount → p.MasterCount < 0 → r₁ = p.MasterCount) ∧
          IsInt32Of p.WorkerCount r₂ ∧ (∀ r, IsInt32Of p.WorkerCount r → r = r₂) ∧
          (-2147483648 ≤ p.WorkerCount → p.WorkerCount < 0 → r₂ = p.WorkerCount)) := by
  constructor
  · intro _ _ _ _ h1 h2
    have hp := pair_of_snd_none _ h1
    have hw := pair_of_snd_none _ h2
    simp only [CM.GenerateTFJob]
    rw [hp, hw]
    refine ⟨_, rfl, int32 p.PSCount, int32 p.WorkerCount, ?_, ?_,
      (int32_is_the_truncation _).1, (int32_is_the_truncation _).2, ?_,
      (int32_is_the_truncation _).1, (int32_is_the_truncation _).2, ?_⟩
    · simp [ReplicaSpecs.get]
    · simp [ReplicaSpecs.get, TFReplicaTypePS, TFReplicaTypeWorker]
    · intro hlo hneg
      exact int32_eq_self _ hlo (by omega)
    · intro hlo hneg
      exact int32_eq_self _ hlo (by omega)
  · intro _ _ _ _ h1 h2
    have hp := pair_of_snd_none _ h1
    have hw := pair_of_snd_none _ h2
    simp only [CM.GeneratePyTorchJob]
    rw [hp, hw]
    refine ⟨_, rfl, int32 p.MasterCount, int32 p.WorkerCount, ?_, ?_,
      (int32_is_the_truncation _).1, (int32_is_the_truncation _).2, ?_,
      (int32_is_the_truncation _).1, (int32_is_the_truncation _).2, ?_⟩
    · simp [ReplicaSpecs.get]
    · simp [ReplicaSpecs.get, PyTorchReplicaTypeMaster, PyTorchReplicaTypeWorker]
    · intro hlo hneg
      exact int32_eq_self _ hlo (by omega)
    · intro hlo hneg
      exact int32_eq_self _ hlo (by omega)

/-- C16 on counts outside the signed 32-bit range and on negative counts:
`2^31` yields `-2^31`, `2^32` yields `0`, and `-5`, `-1` and `-2^31` are
unchanged. -/
theorem wide_counts_are_truncated_witness :
    (∃ job, CM.GenerateTFJob sampleConsts (NewCM "ml-jobs") wideCountParameter
          = (some job, none) ∧
        (ReplicaSpecs.get job.Spec.TFReplicaSpecs TFReplicaTypePS).map ReplicaSpec.Replicas
          = some (some (-2147483648)) ∧
        (ReplicaSpecs.get job.Spec.TFReplicaSpecs TFReplicaTypeWorker).map ReplicaSpec.Replicas
          = some (some 0)) ∧
    (∃ job, CM.GeneratePyTorchJob sampleConsts (NewCM "ml-jobs") wideCountParameter
          = (some job, none) ∧
        (ReplicaSpecs.get job.Spec.PyTorchReplicaSpecs PyTorchReplicaTypeMaster).map
            ReplicaSpec.Replicas
          = some (some (-2147483648)) ∧
        (ReplicaSpecs.get job.Spec.PyTorchReplicaSpecs PyTorchReplicaTypeWorker).map
            ReplicaSpec.Replicas
          = some (some 0)) ∧
    (∃ job, CM.GenerateTFJob sampleConsts (NewCM "ml-jobs") negativeCountParameter
          = (some job, none) ∧
        (ReplicaSpecs.get job.Spec.TFReplicaSpecs TFReplicaTypePS).map ReplicaSpec.Replicas
          = some (some (-5)) ∧
        (ReplicaSpecs.get job.Spec.TFReplicaSpecs TFReplicaTypeWorker).map ReplicaSpec.Replicas
          = some (some (-1))) ∧
    (∃ job, CM.GeneratePyTorchJob sampleConsts (NewCM "ml-jobs") negativeCountParameter
          = (some job, none) ∧
        (ReplicaSpecs.get job.Spec.PyTorchReplicaSpecs PyTorchReplicaTypeMaster).map
            ReplicaSpec.Replicas
          = some (some (-2147483648)) ∧
        (ReplicaSpecs.get job.Spec.PyTorchReplicaSpecs PyTorchReplicaTypeWorker).map
            ReplicaSpec.Replicas
          = some (some (-1))) := by
  refine ⟨?_, ?_, ?_, ?_⟩
  · obtain ⟨job, hjob, r₁, r₂, h1, h2, ⟨_, _, hc₁⟩, _, _, ⟨_, _, hc₂⟩, _, _⟩ :=
      (wide_counts_are_truncated sampleConsts (NewCM "ml-jobs") wideCountParameter).1
        (by decide) (by decide) (by decide) (by decide) rfl rfl
    simp only [wideCountParameter] at hc₁ hc₂
    have e₁ : r₁ = int32 wideCountParameter.PSCount := by
      simp only [wideCountParameter, int32]
      omega
    have e₂ : r₂ = int32 wideCountParameter.WorkerCount := by
      simp only [wideCountParameter, int32]
      omega
    subst e₁ e₂
    exact ⟨job, hjob, h1, h2⟩
  · obtain ⟨job, hjob, r₁, r₂, h1, h2, ⟨_, _, hc₁⟩, _, _, ⟨_, _, hc₂⟩, _, _⟩ :=
      (wide_counts_are_truncated sampleConsts (NewCM "ml-jobs") wideCountParameter).2
        (by decide) (by decide) (by decide) (by decide) rfl rfl
    simp only [wideCountParameter] at hc₁ hc₂
    have e₁ : r₁ = int32 wideCountParameter.MasterCount := by
      simp only [wideCountParameter, int32]
      omega
    have e₂ : r₂ = int32 wideCountParameter.WorkerCount := by
      simp only [wideCountParameter, int32]
      omega
    subst e₁ e₂
    exact ⟨job, hjob, h1, h2⟩
  · obtain ⟨job, hjob, r₁, r₂, h1, h2, ⟨_, _, hc₁⟩, _, _, ⟨_, _, hc₂⟩, _, _⟩ :=
      (wide_counts_are_truncated sampleConsts (NewCM "ml-jobs") negativeCountParameter).1
        (by decide) (by decide) (by decide) (by decide) rfl rfl
    simp only [negativeCountParameter] at hc₁ hc₂
    have e₁ : r₁ = int32 negativeCountParameter.PSCount := by
      simp only [negativeCountParameter, int32]
      omega
    have e₂ : r₂ = int32 negativeCountParameter.WorkerCount := by
      simp only [negativeCountParameter, int32]
      omega
    subst e₁ e₂
    exact ⟨job, hjob, h1, h2⟩
  · obtain ⟨job, hjob, r₁, r₂, h1, h2, ⟨_, _, hc₁⟩, _, _, ⟨_, _, hc₂⟩, _, _⟩ :=
      (wide_counts_are_truncated sampleConsts (NewCM "ml-jobs") negativeCountParameter).2
        (by decide) (by decide) (by decide) (by decide) rfl rfl
    simp only [negativeCountParameter] at hc₁ hc₂
    have e₁ : r₁ = int32 negativeCountParameter.MasterCount := by
      simp only [negativeCountParameter, int32]
      omega
    have e₂ : r₂ = int32 negativeCountParameter.WorkerCount := by
      simp only [negativeCountParameter, int32]
      omega
    subst e₁ e₂
    exact ⟨job, hjob, h1, h2⟩

/-- C16, counterexample to "negative counts are carried through
unchanged": with limits that resolve and the negative 64-bit count
`-2^31 - 1` for the first role and `-2^32` for the workers, both operations
succeed, but the replica counts are `2^31 - 1` and `0`, not the input
counts. -/
theorem negative_count_below_range_is_altered :
    (belowRangeParameter.PSCount < 0 ∧ -9223372036854775808 ≤ belowRangeParameter.PSCount ∧
      belowRangeParameter.WorkerCount < 0 ∧
      -9223372036854775808 ≤ belowRangeParameter.WorkerCount ∧
      belowRangeParameter.Resource.PSLimits.2 = none ∧
      belowRangeParameter.Resource.WorkerLimits.2 = none ∧
      ∃ job, CM.GenerateTFJob sampleConsts (NewCM "ml-jobs") belowRangeParameter
          = (some job, none) ∧
        (ReplicaSpecs.get job.Spec.TFReplicaSpecs TFReplicaTypePS).map ReplicaSpec.Replicas
          = some (some 2147483647) ∧
        (ReplicaSpecs.get job.Spec.TFReplicaSpecs TFReplicaTypePS).map ReplicaSpec.Replicas
          ≠ some (some belowRangeParameter.PSCount) ∧
        (ReplicaSpecs.get job.Spec.TFReplicaSpecs TFReplicaTypeWorker).map ReplicaSpec.Replicas
          = some (some 0) ∧
        (ReplicaSpecs.get job.Spec.TFReplicaSpecs TFReplicaTypeWorker).map ReplicaSpec.Replicas
          ≠ some (some belowRangeParameter.WorkerCount)) ∧
    (belowRangeParameter.MasterCount < 0 ∧
      -9223372036854775808 ≤ belowRangeParameter.MasterCount ∧
      belowRangeParameter.Resource.MasterLimits.2 = none ∧
      belowRangeParameter.Resource.WorkerLimits.2 = none ∧
      ∃ job, CM.GeneratePyTorchJob sampleConsts (NewCM "ml-jobs") belowRangeParameter
          = (some job, none) ∧
        (ReplicaSpecs.get job.Spec.PyTorchReplicaSpecs PyTorchReplicaTypeMaster).map
            ReplicaSpec.Replicas
          = some (some 2147483647) ∧
        (ReplicaSpecs.get job.Spec.PyTorchReplicaSpecs PyTorchReplicaTypeMaster).map
            ReplicaSpec.Replicas
          ≠ some (some belowRangeParameter.MasterCount)) := by
  refine ⟨⟨by decide, by decide, by decide, by decide, rfl, rfl, _, rfl, ?_, ?_, ?_, ?_⟩,
    ⟨by decide, by decide, rfl, rfl, _, rfl, ?_, ?_⟩⟩ <;> decide

/-! ## Frame of the namespace -/

/-- C17: for every parameter and every two namespaces, the same operation
on the generators of the two namespaces either fails with the same error on
both, or returns two descriptors, each carrying its generator's namespace,
that are equal once their metadata namespaces are set to a common value. -/
theorem namespace_only_sets_metadata_namespace (k : Consts) (p : Parameter)
    (ns₁ ns₂ : String) :
    ((∃ e, CM.GenerateTFJob k (NewCM ns₁) p = (none, some e) ∧
          CM.GenerateTFJob k (NewCM ns₂) p = (none, some e)) ∨
      (∃ j₁ j₂, CM.GenerateTFJob k (NewCM ns₁) p = (some j₁, none) ∧
          CM.GenerateTFJob k (NewCM ns₂) p = (some j₂, none) ∧
          j₁.ObjectMeta.Namespace = ns₁ ∧ j₂.ObjectMeta.Namespace = ns₂ ∧
          ∀ ns, j₁.withNamespace ns = j₂.withNamespace ns)) ∧
    ((∃ e, CM.GeneratePyTorchJob k (NewCM ns₁) p = (none, some e) ∧
          CM.GeneratePyTorchJob k (NewCM ns₂) p = (none, some e)) ∨
      (∃ j₁ j₂, CM.GeneratePyTorchJob k (NewCM ns₁) p = (some j₁, none) ∧
          CM.GeneratePyTorchJob k (NewCM ns₂) p = (some j₂, none) ∧
          j₁.ObjectMeta.Namespace = ns₁ ∧ j₂.ObjectMeta.Namespace = ns₂ ∧
          ∀ ns, j₁.withNamespace ns = j₂.withNamespace ns)) := by
  constructor
  · rcases hps : p.Resource.PSLimits with ⟨ps, _ | e1⟩ <;>
      rcases hws : p.Resource.WorkerLimits with ⟨ws, _ | e2⟩ <;>
      simp [CM.GenerateTFJob, NewCM, TFJob.withNamespace, hps, hws]
  · rcases hms : p.Resource.MasterLimits with ⟨ms, _ | e1⟩ <;>
      rcases hws : p.Resource.WorkerLimits with ⟨ws, _ | e2⟩ <;>
      simp [CM.GeneratePyTorchJob, NewCM, PyTorchJob.withNamespace, hms, hws]

end Ciao
